import Mathlib

/-!
Verification development for the deterministic NLP chart engine
(`backend/services/nlp_engine/`): a shallow embedding of the Python
modules `nlp_extraction.py`, `temporal_utils.py`, `nlp_interpreter.py`
and `chart_builder.py`, followed by theorems settling the
specification claims about them.

Modelling conventions:
* Python scalars and JSON-shaped payloads are the inductive `Py`
  (numbers are exact rationals; Python `float` rounding is not
  modelled, which is faithful for the decimal literals exercised here).
* Python dicts are association lists in insertion order, mirroring
  Python 3.7+ dict ordering; `dict.get` is first-match lookup.
* Fallible Python code (code that can raise) returns `Except PyErr`.
* External libraries (`json.loads`, `dateutil.parser.parse`) are
  passed in as explicit function parameters at the places where the
  embedded code calls them.
* Python strings are treated as sequences of Unicode code points;
  `str.lower()` is modelled by ASCII lowercasing, faithful for the
  ASCII inputs exercised throughout.
-/

namespace AITool

/-- A Python value as produced by JSON decoding: `None`, booleans,
integers, floats (modelled as exact rationals), strings, lists and
string-keyed dicts (association lists in insertion order). -/
inductive Py where
  | none : Py
  | bool : Bool → Py
  | int : Int → Py
  | float : ℚ → Py
  | str : String → Py
  | list : List Py → Py
  | dict : List (String × Py) → Py
  deriving Repr

mutual

/-- Structural equality test on `Py` (Python `==` restricted to equal
shapes; numeric cross-type equality is handled separately where the
source relies on it). -/
def Py.beq : Py → Py → Bool
  | .none, .none => true
  | .bool a, .bool b => a == b
  | .int a, .int b => a == b
  | .float a, .float b => a == b
  | .str a, .str b => a == b
  | .list a, .list b => Py.beqList a b
  | .dict a, .dict b => Py.beqDict a b
  | _, _ => false

def Py.beqList : List Py → List Py → Bool
  | [], [] => true
  | x :: xs, y :: ys => Py.beq x y && Py.beqList xs ys
  | _, _ => false

def Py.beqDict : List (String × Py) → List (String × Py) → Bool
  | [], [] => true
  | (k, x) :: xs, (l, y) :: ys => k == l && Py.beq x y && Py.beqDict xs ys
  | _, _ => false

end

mutual

theorem Py.beq_iff : ∀ a b : Py, Py.beq a b = true ↔ a = b
  | .none, b => by cases b <;> simp [Py.beq]
  | .bool a, b => by cases b <;> simp [Py.beq]
  | .int a, b => by cases b <;> simp [Py.beq]
  | .float a, b => by cases b <;> simp [Py.beq]
  | .str a, b => by cases b <;> simp [Py.beq]
  | .list a, b => by
      cases b <;> simp [Py.beq]
      exact Py.beqList_iff a _
  | .dict a, b => by
      cases b <;> simp [Py.beq]
      exact Py.beqDict_iff a _

theorem Py.beqList_iff : ∀ a b : List Py, Py.beqList a b = true ↔ a = b
  | [], b => by cases b <;> simp [Py.beqList]
  | x :: xs, b => by
      cases b with
      | nil => simp [Py.beqList]
      | cons y ys => simp [Py.beqList, Py.beq_iff x y, Py.beqList_iff xs ys]

theorem Py.beqDict_iff : ∀ a b : List (String × Py), Py.beqDict a b = true ↔ a = b
  | [], b => by cases b <;> simp [Py.beqDict]
  | (k, x) :: xs, b => by
      cases b with
      | nil => simp [Py.beqDict]
      | cons p ys =>
        cases p with
        | mk l y => simp [Py.beqDict, Py.beq_iff x y, Py.beqDict_iff xs ys, and_assoc]

end

instance : DecidableEq Py := fun a b => decidable_of_iff _ (Py.beq_iff a b)

/-- A dataset record: one row, a Python dict mapping column name to value. -/
abbrev Record := List (String × Py)

/-- Python `row.get(key)` on a dict: first binding of `key`, else nothing. -/
def rowGet (r : Record) (k : String) : Option Py :=
  match r.find? (fun p => p.1 == k) with
  | some p => some p.2
  | none => Option.none

/-- Python `row.get(key)` with its implicit `None` default. -/
def rowGetNone (r : Record) (k : String) : Py :=
  (rowGet r k).getD Py.none

/-- Python `row.get(key, default)`. -/
def rowGetD (r : Record) (k : String) (d : Py) : Py :=
  (rowGet r k).getD d

/-- Python membership test `value in (None, "")` used by the extraction code. -/
def isNullish (v : Py) : Bool :=
  v == Py.none || v == Py.str ""

/-! ### String utilities

Helpers mirroring the Python string operations and the few regular
expressions used by the engine. All operate on code-point lists. -/

/-- Python whitespace for `str.strip()` / `\s`. -/
def isPySpace (c : Char) : Bool :=
  c = ' ' || c = '\t' || c = '\n' || c = Char.ofNat 13 || c = Char.ofNat 11 || c = Char.ofNat 12

/-- `str.strip()`. -/
def pyStrip (s : String) : String :=
  String.mk (((s.toList.dropWhile isPySpace).reverse.dropWhile isPySpace).reverse)

/-- `str.lower()` (ASCII). -/
def pyLower (s : String) : String :=
  String.mk (s.toList.map Char.toLower)

def isDigitC (c : Char) : Bool := '0' ≤ c && c ≤ '9'

def isAlnumLower (c : Char) : Bool := isDigitC c || ('a' ≤ c && c ≤ 'z')

/-- A regex word character `\w`: `[a-zA-Z0-9_]` (ASCII). -/
def isWordChar (c : Char) : Bool :=
  isDigitC c || ('a' ≤ c && c ≤ 'z') || ('A' ≤ c && c ≤ 'Z') || c = '_'

/-- Leftmost index at which `n` occurs as a sublist of `h` (Python `find`). -/
def listIndexOf (n : List Char) : List Char → Option Nat
  | [] => if n = [] then some 0 else Option.none
  | c :: t => if n.isPrefixOf (c :: t) then some 0 else (listIndexOf n t).map (· + 1)

/-- Python substring containment `needle in hay`. -/
def strContains (hay needle : String) : Bool :=
  (listIndexOf needle.toList hay.toList).isSome

/-- Python `str.find`. -/
def strFind (hay needle : String) : Option Nat :=
  listIndexOf needle.toList hay.toList

/-- `str.split()` with no argument: split on runs of whitespace,
discarding empty pieces. -/
def pySplitWs (s : String) : List String :=
  ((s.toList.splitOnP isPySpace).filter (· ≠ [])).map String.mk

/-- `str.split(sep, 1)`: the pieces before and after the first
occurrence of `sep`, if `sep` occurs. -/
def pySplitOnce (s sep : String) : Option (String × String) :=
  match strFind s sep with
  | some i =>
      some (String.mk (s.toList.take i), String.mk (s.toList.drop (i + sep.length)))
  | Option.none => Option.none

/-- `re.sub(r"[^a-z0-9]+", " ", ·)`: collapse each maximal run of
non-alphanumeric characters into a single space. The Boolean state
says whether we are inside a non-alphanumeric run that has already
emitted its space. -/
def collapseGo : Bool → List Char → List Char
  | _, [] => []
  | inRun, c :: cs =>
      if isAlnumLower c then c :: collapseGo false cs
      else if inRun then collapseGo true cs
      else ' ' :: collapseGo true cs

def collapseNonAlnum (cs : List Char) : List Char :=
  collapseGo false cs

/-- `_normalize` (nlp_interpreter.py): lowercase, collapse
non-alphanumeric runs to single spaces, strip. -/
def _normalize (text : String) : String :=
  pyStrip (String.mk (collapseNonAlnum (pyLower text).toList))

/-- Case-insensitive equality of code-point lists (ASCII lowering). -/
def ciEq (a b : List Char) : Bool :=
  a.map Char.toLower == b.map Char.toLower

/-- Search for the regex `(?i)(?<!\w)LIT(?!\w)` — a case-insensitive
verbatim occurrence of `name` not adjacent to word characters — and
return the index of the leftmost match. (`re.escape` makes the column
name literal; the lookarounds are the adjacency checks.) -/
def verbatimSearch (name query : String) : Option Nat :=
  let n := name.toList
  let hay := query.toList
  let matchesAt (j : Nat) : Bool :=
    decide ((hay.drop j).length ≥ n.length)
      && ciEq ((hay.drop j).take n.length) n
      && (decide (j = 0) || ¬ isWordChar (hay.getD (j - 1) ' '))
      && (decide (j + n.length ≥ hay.length) || ¬ isWordChar (hay.getD (j + n.length) ' '))
  ((List.range (hay.length + 1)).filter matchesAt).head?

/-! ### Kernel-computable rational arithmetic

The engine's numbers are exact rationals (`ℚ`). Mathlib's rational
arithmetic does not reduce inside the kernel, so the embedding routes
every operation through `mkRat`, which does; all rationals built here
are therefore in normal form and structural equality is value
equality. -/

def qnat (n : Nat) : ℚ := mkRat n 1

def qint (n : Int) : ℚ := mkRat n 1

def qadd (a b : ℚ) : ℚ := mkRat (a.num * (b.den : Int) + b.num * (a.den : Int)) (a.den * b.den)

def qsub (a b : ℚ) : ℚ := mkRat (a.num * (b.den : Int) - b.num * (a.den : Int)) (a.den * b.den)

def qmul (a b : ℚ) : ℚ := mkRat (a.num * b.num) (a.den * b.den)

def qneg (a : ℚ) : ℚ := mkRat (-a.num) a.den

/-- Division (0 on a zero divisor, like Python would never ask). -/
def qdiv (a b : ℚ) : ℚ :=
  let n := a.num * (b.den : Int)
  let d := (a.den : Int) * b.num
  if d < 0 then mkRat (-n) (-d).toNat else mkRat n d.toNat

def qlt (a b : ℚ) : Bool := a.num * (b.den : Int) < b.num * (a.den : Int)

def qle (a b : ℚ) : Bool := a.num * (b.den : Int) ≤ b.num * (a.den : Int)

def qmin (a b : ℚ) : ℚ := if qle a b then a else b

/-- Python `int(·)` truncation of a nonnegative rational (the only
case the engine reaches). -/
def qtruncNat (a : ℚ) : Nat := (a.num / (a.den : Int)).toNat

/-- `round(·)` to the nearest integer, halves away from zero (the
engine only formats nonnegative similarity scores and histogram edges
with it; cosmetic). -/
def qroundInt (a : ℚ) : Int := (2 * a.num + (a.den : Int)) / (2 * (a.den : Int))

/-! ### `nlp_extraction._safe_float`

Safe numeric conversion: `None`/containers fail; ints, floats and bools
(a Python `int` subclass) convert directly; strings are stripped, have
commas removed, and yield the leftmost `-?\d+(?:\.\d+)?` substring. -/

def digitsToNat (ds : List Char) : Nat :=
  ds.foldl (fun a c => a * 10 + (c.toNat - 48)) 0

def takeDigits (cs : List Char) : List Char × List Char :=
  (cs.takeWhile isDigitC, cs.dropWhile isDigitC)

/-- Match `-?\d+(?:\.\d+)?` anchored at the head of `cs`:
sign, integer digits, fraction digits. -/
def matchNumAt (cs : List Char) : Option (Bool × List Char × List Char) :=
  let (neg, cs') : Bool × List Char :=
    match cs with
    | '-' :: rest => (true, rest)
    | _ => (false, cs)
  let (ds, rest) := takeDigits cs'
  if ds = [] then Option.none
  else
    match rest with
    | '.' :: r2 =>
        let (fs, _) := takeDigits r2
        if fs = [] then some (neg, ds, []) else some (neg, ds, fs)
    | _ => some (neg, ds, [])

/-- Leftmost match of `-?\d+(?:\.\d+)?` (the `re.search` in `_safe_float`). -/
def findNum : List Char → Option (Bool × List Char × List Char)
  | [] => Option.none
  | cs@(_ :: t) =>
      match matchNumAt cs with
      | some r => some r
      | Option.none => findNum t

/-- Exact rational value of a matched decimal literal. (Python converts via
`float`, rounding to binary; the exact-rational model is faithful for the
short decimal literals arising in this engine.) -/
def decToRat (neg : Bool) (ip fp : List Char) : ℚ :=
  let v : ℚ := qadd (qnat (digitsToNat ip)) (qdiv (qnat (digitsToNat fp)) (qnat (10 ^ fp.length)))
  if neg then qneg v else v

/-- `_safe_float` (nlp_extraction.py). -/
def _safe_float : Py → Option ℚ
  | .none => Option.none
  | .bool b => some (if b then qnat 1 else qnat 0)
  | .int n => some (qint n)
  | .float q => some q
  | .str s =>
      let cleaned := String.mk ((pyStrip s).toList.filter (fun c => c ≠ ','))
      if cleaned = "" then Option.none
      else
        match findNum cleaned.toList with
        | some (neg, ip, fp) => some (decToRat neg ip fp)
        | Option.none => Option.none
  | _ => Option.none

/-- Python `str(·)` on the values the engine handles. Floats print exactly
when integral (`5.0`); non-integral floats and nested containers get
placeholder renderings — the engine's claims never inspect those strings. -/
def pyStr : Py → String
  | .none => "None"
  | .bool b => if b then "True" else "False"
  | .int n => toString n
  | .float q => if q.den = 1 then toString q.num ++ ".0"
                else toString q.num ++ "/" ++ toString q.den
  | .str s => s
  | .list _ => "[...]"
  | .dict _ => "\x7b...\x7d"

/-! ### `temporal_utils.py`

`_parse_date_safe` tries thirteen `datetime.strptime` formats in order.
The embedding reproduces CPython's `_strptime` matching: `%Y` is exactly
four digits, `%m` is `1[0-2]|0[1-9]|[1-9]`, `%d` is
`3[01]|[12]\d|0[1-9]|[1-9]`, `%b`/`%B` are case-insensitive C-locale
month names, a space matches `\s+`, the whole string must be consumed
(with regex backtracking), and the resulting calendar date must be
valid (otherwise `strptime` raises and the next format is tried).
Unparsed fields default to month 1 / day 1. -/

structure SDate where
  year : Nat
  month : Nat
  day : Nat
  deriving DecidableEq, Repr

def isLeapYear (y : Nat) : Bool :=
  (y % 4 = 0 && ¬ y % 100 = 0) || y % 400 = 0

def daysInMonth (y m : Nat) : Nat :=
  if m = 2 then (if isLeapYear y then 29 else 28)
  else if m = 4 || m = 6 || m = 9 || m = 11 then 30
  else 31

/-- One `strptime` directive (or literal) of the formats used here. -/
inductive FTok where
  | lit (c : Char)
  | ws
  | bigY
  | mon
  | dy
  | bMon
  | bigB
  deriving DecidableEq, Repr

structure PState where
  y : Option Nat
  m : Option Nat
  d : Option Nat
  deriving DecidableEq, Repr

/-- `%Y`: exactly four digits. -/
def altY (cs : List Char) : List (Nat × List Char) :=
  let ds := cs.take 4
  if ds.length = 4 && ds.all isDigitC then [(digitsToNat ds, cs.drop 4)] else []

/-- `%m`: regex alternation `1[0-2]|0[1-9]|[1-9]`, in order. -/
def altM (cs : List Char) : List (Nat × List Char) :=
  (match cs with
   | '1' :: c :: rest => if '0' ≤ c && c ≤ '2' then [(10 + (c.toNat - 48), rest)] else []
   | _ => []) ++
  (match cs with
   | '0' :: c :: rest => if '1' ≤ c && c ≤ '9' then [(c.toNat - 48, rest)] else []
   | _ => []) ++
  (match cs with
   | c :: rest => if '1' ≤ c && c ≤ '9' then [(c.toNat - 48, rest)] else []
   | _ => [])

/-- `%d`: regex alternation `3[01]|[12]\d|0[1-9]|[1-9]`, in order. -/
def altD (cs : List Char) : List (Nat × List Char) :=
  (match cs with
   | '3' :: c :: rest => if c = '0' || c = '1' then [(30 + (c.toNat - 48), rest)] else []
   | _ => []) ++
  (match cs with
   | c :: d :: rest =>
      if (c = '1' || c = '2') && isDigitC d
      then [((c.toNat - 48) * 10 + (d.toNat - 48), rest)] else []
   | _ => []) ++
  (match cs with
   | '0' :: c :: rest => if '1' ≤ c && c ≤ '9' then [(c.toNat - 48, rest)] else []
   | _ => []) ++
  (match cs with
   | c :: rest => if '1' ≤ c && c ≤ '9' then [(c.toNat - 48, rest)] else []
   | _ => [])

/-- A literal space in the format: `\s+`, greedy with backtracking
(longest consumption first). -/
def altWs (cs : List Char) : List (List Char) :=
  let run := (cs.takeWhile isPySpace).length
  (List.range run).map (fun i => cs.drop (run - i))

def monthAbbrs : List (String × Nat) :=
  [("jan", 1), ("feb", 2), ("mar", 3), ("apr", 4), ("may", 5), ("jun", 6),
   ("jul", 7), ("aug", 8), ("sep", 9), ("oct", 10), ("nov", 11), ("dec", 12)]

/-- Full month names in CPython's alternation order (sorted by length,
descending, stably from calendar order). -/
def monthFulls : List (String × Nat) :=
  [("september", 9), ("february", 2), ("november", 11), ("december", 12),
   ("january", 1), ("october", 10), ("august", 8), ("march", 3),
   ("april", 4), ("june", 6), ("july", 7), ("may", 5)]

/-- Case-insensitive month-name alternation. -/
def altMonName (tbl : List (String × Nat)) (cs : List Char) : List (Nat × List Char) :=
  tbl.filterMap (fun p =>
    let n := p.1.toList
    if decide (cs.length ≥ n.length) && ciEq (cs.take n.length) n
    then some (p.2, cs.drop n.length) else Option.none)

/-- Run a format against the input with full backtracking; the whole
input must be consumed. -/
def runFmt : List FTok → PState → List Char → Option PState
  | [], st, [] => some st
  | [], _, _ :: _ => Option.none
  | t :: rest, st, cs =>
      let opts : List (PState × List Char) :=
        match t with
        | .lit c =>
            match cs with
            | c' :: r => if c' = c then [(st, r)] else []
            | [] => []
        | .ws => (altWs cs).map (fun r => (st, r))
        | .bigY => (altY cs).map (fun v => ({ st with y := some v.1 }, v.2))
        | .mon => (altM cs).map (fun v => ({ st with m := some v.1 }, v.2))
        | .dy => (altD cs).map (fun v => ({ st with d := some v.1 }, v.2))
        | .bMon => (altMonName monthAbbrs cs).map (fun v => ({ st with m := some v.1 }, v.2))
        | .bigB => (altMonName monthFulls cs).map (fun v => ({ st with m := some v.1 }, v.2))
      opts.findSome? (fun p => runFmt rest p.1 p.2)

/-- `datetime.strptime(s, fmt)` restricted to the directives above:
parse, apply defaults (1900-01-01), and validate the calendar date. -/
def strptime (fmt : List FTok) (s : String) : Option SDate :=
  match runFmt fmt ⟨Option.none, Option.none, Option.none⟩ s.toList with
  | some st =>
      let y := st.y.getD 1900
      let m := st.m.getD 1
      let d := st.d.getD 1
      if y = 0 then Option.none
      else if d ≤ daysInMonth y m then some ⟨y, m, d⟩ else Option.none
  | Option.none => Option.none

/-- The thirteen formats of `_parse_date_safe`, in order. -/
def dateFormats : List (List FTok) :=
  [ [.bigY, .lit '-', .mon, .lit '-', .dy],
    [.bigY, .lit '/', .mon, .lit '/', .dy],
    [.bigY, .lit '-', .mon],
    [.bigY, .lit '/', .mon],
    [.bigY],
    [.bMon, .ws, .bigY],
    [.bigB, .ws, .bigY],
    [.bigY, .ws, .bMon],
    [.bigY, .ws, .bigB],
    [.dy, .lit '-', .bMon, .lit '-', .bigY],
    [.dy, .lit '-', .bigB, .lit '-', .bigY],
    [.mon, .lit '/', .dy, .lit '/', .bigY],
    [.dy, .lit '/', .mon, .lit '/', .bigY] ]

/-- `_parse_date_safe` (temporal_utils.py). The `datetime`/`date`
instance branches are unreachable for JSON-derived values, so only the
string branch parses; every non-string input yields `None`. -/
def _parse_date_safe (v : Py) : Option SDate :=
  match v with
  | .str s => dateFormats.findSome? (fun f => strptime f (pyStrip s))
  | _ => Option.none

/-- `_classify_temporal_value` (temporal_utils.py): parse, then the
precision heuristic on the resulting date. -/
def _classify_temporal_value (v : Py) : Option String :=
  match _parse_date_safe v with
  | Option.none => Option.none
  | some dt =>
      if dt.day ≠ 1 then some "date"
      else if dt.month ≠ 1 then some "month"
      else if dt.month = 1 || dt.month = 4 || dt.month = 7 || dt.month = 10 then some "quarter"
      else some "year"

/-- Tally of one classification label over a value list. -/
def countClass (values : List Py) (c : String) : Nat :=
  (values.filter (fun v => _classify_temporal_value v = some c)).length

/-- `_infer_temporal_granularity` (temporal_utils.py): tally the four
labels; `None` when nothing classified; otherwise the first populated
level in the order date, month, quarter, year. -/
def _infer_temporal_granularity (values : List Py) : Option String :=
  let dDate := countClass values "date"
  let dMonth := countClass values "month"
  let dQuarter := countClass values "quarter"
  let dYear := countClass values "year"
  if dYear = 0 && dQuarter = 0 && dMonth = 0 && dDate = 0 then Option.none
  else if dDate > 0 then some "date"
  else if dMonth > 0 then some "month"
  else if dQuarter > 0 then some "quarter"
  else if dYear > 0 then some "year"
  else some "date"

/-- `_format_time_bucket` (temporal_utils.py). Its first line returns
`str(dt)` whenever `dt` is not a `datetime` instance; JSON-derived row
values never are, so the strftime branches are unreachable in this
embedding and the function reduces to `str`. -/
def _format_time_bucket (dt : Py) (_granularity : Option String) : String :=
  pyStr dt

/-! ### Stable sorting

Python `list.sort` / `sorted` are stable; for the total preorders used
by the engine (rationals, strings, pairs) every stable sort produces
the same list, so a stable insertion sort is an extensionally faithful
model and, unlike `List.mergeSort`, evaluates inside the kernel. -/

/-- Insert `x` after every already-placed element `y` with `le y x`
(stability for ties). -/
def insertLe (le : α → α → Bool) (x : α) : List α → List α
  | [] => [x]
  | y :: ys => if le y x then y :: insertLe le x ys else x :: y :: ys

/-- Stable sort: fold elements in order into a sorted accumulator. -/
def stableSortBy (le : α → α → Bool) (l : List α) : List α :=
  l.foldl (fun acc x => insertLe le x acc) []

theorem length_insertLe (le : α → α → Bool) (x : α) :
    ∀ l : List α, (insertLe le x l).length = l.length + 1 := by
  intro l
  induction l with
  | nil => rfl
  | cons y ys ih =>
      by_cases h : le y x = true <;> simp [insertLe, h, ih]

theorem length_stableSortBy (le : α → α → Bool) (l : List α) :
    (stableSortBy le l).length = l.length := by
  suffices h : ∀ acc : List α,
      (l.foldl (fun acc x => insertLe le x acc) acc).length = acc.length + l.length by
    simpa using h []
  induction l with
  | nil => intro acc; simp
  | cons y ys ih =>
      intro acc
      simp only [List.foldl_cons, ih, length_insertLe, List.length_cons]
      omega

theorem perm_insertLe (le : α → α → Bool) (x : α) :
    ∀ l : List α, (insertLe le x l).Perm (x :: l) := by
  intro l
  induction l with
  | nil => simp [insertLe]
  | cons y ys ih =>
      by_cases h : le y x = true
      · simpa [insertLe, h] using
          ((ih.cons y).trans (List.Perm.swap x y ys))
      · simp [insertLe, h]

theorem perm_stableSortBy (le : α → α → Bool) (l : List α) :
    (stableSortBy le l).Perm l := by
  suffices h : ∀ acc : List α,
      (l.foldl (fun acc x => insertLe le x acc) acc).Perm (acc ++ l) by
    simpa using h []
  induction l with
  | nil => intro acc; simp
  | cons y ys ih =>
      intro acc
      simp only [List.foldl_cons]
      refine (ih _).trans ?_
      refine (List.Perm.append_right ys (perm_insertLe le y acc)).trans ?_
      simpa using (@List.perm_middle _ y acc ys).symm

theorem sorted_insertLe (le : α → α → Bool)
    (htot : ∀ a b, le a b || le b a) (htrans : ∀ a b c, le a b → le b c → le a c)
    (x : α) : ∀ l : List α, l.Pairwise (fun a b => le a b) →
    (insertLe le x l).Pairwise (fun a b => le a b) := by
  intro l
  induction l with
  | nil => intro _; simp [insertLe]
  | cons y ys ih =>
      intro hp
      rcases List.pairwise_cons.mp hp with ⟨hy, hys⟩
      by_cases h : le y x = true
      · simp only [insertLe, h, if_true]
        refine List.pairwise_cons.mpr ⟨?_, ih hys⟩
        intro b hb
        have hb' : b ∈ x :: ys := (perm_insertLe le x ys).mem_iff.mp hb
        rcases List.mem_cons.mp hb' with hb1 | hb1
        · subst hb1; exact h
        · exact hy b hb1
      · simp only [insertLe, h, if_false]
        have hxy : le x y := by
          rcases Bool.or_eq_true_iff.mp (htot y x) with h1 | h1
          · exact absurd h1 h
          · exact h1
        refine List.pairwise_cons.mpr ⟨?_, hp⟩
        intro b hb
        rcases List.mem_cons.mp hb with hb1 | hb1
        · subst hb1; exact hxy
        · exact htrans x y b hxy (hy b hb1)

theorem sorted_stableSortBy (le : α → α → Bool)
    (htot : ∀ a b, le a b || le b a) (htrans : ∀ a b c, le a b → le b c → le a c)
    (l : List α) : (stableSortBy le l).Pairwise (fun a b => le a b) := by
  suffices h : ∀ acc : List α, acc.Pairwise (fun a b => le a b) →
      (l.foldl (fun acc x => insertLe le x acc) acc).Pairwise (fun a b => le a b) by
    exact h [] (by simp)
  induction l with
  | nil => intro acc hacc; simpa using hacc
  | cons y ys ih =>
      intro acc hacc
      simp only [List.foldl_cons]
      exact ih _ (sorted_insertLe le htot htrans y acc hacc)

/-! ### `difflib.SequenceMatcher.ratio`

The interpreter's fuzzy matching. For the short strings compared here
(query tokens against normalised column names) `difflib`'s junk and
autojunk heuristics are inert (autojunk needs a second sequence of 200+
characters), so the ratio is `2·M/(len(a)+len(b))` where `M` is the
total size of the recursively-chosen longest matching blocks. -/

/-- Length of the common prefix run of two character lists. -/
def commonRunLen : List Char → List Char → Nat
  | a :: as, b :: bs => if a = b then 1 + commonRunLen as bs else 0
  | _, _ => 0

/-- `find_longest_match` over whole sequences (no junk): the longest
common contiguous block, preferring the smallest start in `a`, then the
smallest start in `b`. Returns `(i, j, k)`. -/
def bestMatchAt (a b : List Char) : Nat × Nat × Nat :=
  let pairs := (List.range a.length).flatMap (fun i => (List.range b.length).map (fun j => (i, j)))
  pairs.foldl
    (fun best p =>
      let k := commonRunLen (a.drop p.1) (b.drop p.2)
      if k > best.2.2 then (p.1, p.2, k) else best)
    (0, 0, 0)

/-- Total size of all matching blocks (the recursion of
`get_matching_blocks`): take the longest match, then recurse on the
pieces to its left and to its right. `fuel` bounds the recursion depth
(`|a| + |b|` always suffices since each found block is nonempty). -/
def matchBlocksSize (fuel : Nat) (a b : List Char) : Nat :=
  match fuel with
  | 0 => 0
  | f + 1 =>
      let m := bestMatchAt a b
      let i := m.1
      let j := m.2.1
      let k := m.2.2
      if k = 0 then 0
      else
        matchBlocksSize f (a.take i) (b.take j) + k +
          matchBlocksSize f (a.drop (i + k)) (b.drop (j + k))

/-- `difflib.SequenceMatcher(None, a, b).ratio()`. -/
def diffRatio (sa sb : String) : ℚ :=
  let a := sa.toList
  let b := sb.toList
  if a.length + b.length = 0 then qnat 1
  else qdiv (qnat (2 * matchBlocksSize (a.length + b.length) a b)) (qnat (a.length + b.length))

/-! ### Column descriptors

Columns flow through the interpreter as Python dicts; the fields below
are the keys the engine reads. `uniqueCount` is an `Option` because
`_choose_chart_type` reads it with `col.get("uniqueCount")` and handles
the missing-key case. -/

structure Column where
  name : String
  type : String
  values : List Py := []
  nonNullCount : Nat := 0
  uniqueCount : Option Nat := Option.none
  numericRatio : ℚ := qnat 0
  temporalScore : ℚ := qnat 0
  deriving DecidableEq, Repr

structure MatchDetail where
  score : ℚ
  reasons : List String
  deriving DecidableEq, Repr

/-! ### `nlp_interpreter.py`: directive parsing and scoring -/

/-- `_detect_visual_intent`. -/
def _detect_visual_intent (query : String) : String :=
  let lowered := pyLower query
  let visual_keywords := ["plot", "chart", "graph", "visualize", "visualise", "show",
    "display", "trend", "over time", "distribution", "breakdown", "compare"]
  if visual_keywords.any (fun k => strContains lowered k) then "visualize"
  else if strContains lowered "filter" || strContains lowered "subset" then "filter"
  else if strContains lowered "average" || strContains lowered "sum" || strContains lowered "total" then "summarize"
  else "chat"

/-- Match one directive keyword (case-insensitively) at the head of the
input. The six keywords start with distinct letters, so at most one can
match at a given position. -/
def matchKeywordAt (cs : List Char) : Option (String × List Char) :=
  ["chart", "value", "dimension", "filter", "time", "group"].findSome? (fun k =>
    let kl := k.toList
    if decide (cs.length ≥ kl.length) && ciEq (cs.take kl.length) kl
    then some (k, cs.drop kl.length) else Option.none)

/-- Match `(keyword)\s*[:=]\s*([^;\n]+)` at the head of the input,
returning the keyword, the raw capture of group 2, and the rest of the
input after the match. When group 2 would be empty, the regex
backtracks one whitespace character out of the greedy `\s*` (the
captured lone whitespace strips to the empty string). -/
def matchDirectiveAt (cs : List Char) : Option (String × String × List Char) :=
  match matchKeywordAt cs with
  | Option.none => Option.none
  | some (k, r1) =>
      let r2 := r1.dropWhile isPySpace
      match r2 with
      | c :: r3 =>
          if c = ':' || c = '=' then
            let r4 := r3.dropWhile isPySpace
            let span := r4.takeWhile (fun d => d ≠ ';' && d ≠ '\n')
            let rest := r4.drop span.length
            if span ≠ [] then some (k, String.mk span, rest)
            else if r3.length > r4.length then some (k, " ", r4)
            else Option.none
          else Option.none
      | [] => Option.none

/-- The `re.finditer` scan of `_parse_directives`: try a match at each
position, resuming after each match. -/
def scanDirectives (fuel : Nat) (cs : List Char) : List (String × String) :=
  match fuel, cs with
  | 0, _ => []
  | _, [] => []
  | f + 1, cs@(_ :: t) =>
      match matchDirectiveAt cs with
      | some (k, v, rest) => (k, pyStrip v) :: scanDirectives f rest
      | Option.none => scanDirectives f t

/-- Append a directive value under its keyword (`dict.setdefault`:
first-appearance key order, values in scan order). -/
def addDirective (acc : List (String × List String)) (k v : String) :
    List (String × List String) :=
  match acc with
  | [] => [(k, [v])]
  | (k', vs) :: rest =>
      if k' = k then (k', vs ++ [v]) :: rest else (k', vs) :: addDirective rest k v

/-- `_parse_directives`. -/
def _parse_directives (query : String) : List (String × List String) :=
  (scanDirectives query.length query.toList).foldl (fun acc p => addDirective acc p.1 p.2) []

/-- Dict lookup `directives[k]` / `k in directives`. -/
def getDirective (ds : List (String × List String)) (k : String) : Option (List String) :=
  match ds.find? (fun p => p.1 = k) with
  | some p => some p.2
  | Option.none => Option.none

/-- The `re.findall(r"\"([^\"]+)\"|'([^']+)'", ·)` scan for quoted
phrases: at each position try a double-quoted then a single-quoted
nonempty span, resuming after a match. -/
def findQuoted (cs : List Char) : List String :=
  go cs.length cs
where
  go (fuel : Nat) : List Char → List String
    | [] => []
    | c :: t =>
        match fuel with
        | 0 => []
        | f + 1 =>
            if c = '"' || c = Char.ofNat 39 then
              let inner := t.takeWhile (fun d => d ≠ c)
              let rest := t.drop inner.length
              match rest with
              | _ :: r2 =>
                  if inner ≠ [] then String.mk inner :: go f r2
                  else go f t
              | [] => go f t
            else go f t

/-- The per-column scoring loop body of `_score_columns`. -/
def scoreColumn (query : String) (tokens : List String) (normalized_query : String)
    (quoted : List String) (col : Column) : MatchDetail :=
  let name := col.name
  let normalized_name := _normalize name
  let col_tokens := pySplitWs normalized_name
  let quotedHit := quoted.contains normalized_name
  let phraseHit := normalized_name ≠ "" && normalized_query ≠ "" &&
    strContains (" " ++ normalized_query ++ " ") (" " ++ normalized_name ++ " ")
  let tokenEqHit := normalized_name ≠ "" && tokens.contains normalized_name
  let verbatimHit := (verbatimSearch name query).isSome
  let direct_tokens := tokens.filter (fun t => col_tokens.contains t)
  let fuzzyHits : List (String × ℚ) :=
    if direct_tokens = [] then
      (tokens.filter (fun t => t ≠ "")).filterMap (fun t =>
        let similarity := diffRatio t normalized_name
        if qle (mkRat 8 10) similarity then some (t, qmin (qnat 1) similarity) else Option.none)
    else []
  let score0 : ℚ :=
    qadd (qadd (qadd (qadd (qadd
      (if quotedHit then qnat 50 else qnat 0) (if phraseHit then qnat 15 else qnat 0))
      (if tokenEqHit then qnat 12 else qnat 0)) (if verbatimHit then qnat 10 else qnat 0))
      (qnat (4 * direct_tokens.length))) ((fuzzyHits.map (·.2)).foldl qadd (qnat 0))
  let reasons0 : List String :=
    (if quotedHit then ["explicitly quoted in query"] else []) ++
    (if phraseHit then ["exact column phrase mentioned"] else []) ++
    (if tokenEqHit then ["exact column name mentioned"] else []) ++
    (if verbatimHit then ["column referenced verbatim"] else []) ++
    direct_tokens.map (fun t => "matched token \x27" ++ t ++ "\x27") ++
    fuzzyHits.map (fun p => "fuzzy matched token \x27" ++ p.1 ++ "\x27 (" ++ fmt2 p.2 ++ ")")
  let partialHit := reasons0 = [] && normalized_name ≠ "" &&
    tokens.any (fun t => strContains normalized_name t)
  { score := qadd score0 (if partialHit then mkRat 1 4 else qnat 0),
    reasons := reasons0 ++ (if partialHit then ["partial token overlap"] else []) }
where
  /-- Two-decimal rendering of a similarity for the reason string
  (cosmetic; approximates Python `(similarity:.2f)`). -/
  fmt2 (q : ℚ) : String :=
    let cents : Int := qroundInt (qmul q (qnat 100))
    toString (cents / 100) ++ "." ++
      (let f := (cents % 100).toNat
       (if f < 10 then "0" else "") ++ toString f)

/-- `_score_columns`: per-column score and reasons, keyed by column
name. Duplicate names collapse to one dict entry; the score depends
only on the name, so keeping the first binding matches the Python dict
(first key position, last — identical — value). -/
def _score_columns (query : String) (columns : List Column) : List (String × MatchDetail) :=
  let tokens := pySplitWs (_normalize query)
  let normalized_query := _normalize query
  let quoted := ((findQuoted query.toList).map _normalize).filter (· ≠ "")
  columns.foldl
    (fun acc col =>
      if (acc.find? (fun p => p.1 = col.name)).isSome then acc
      else acc ++ [(col.name, scoreColumn query tokens normalized_query quoted col)])
    []

/-- `match_details.get(name, {"score": 0.0})["score"]`. -/
def mdScore (md : List (String × MatchDetail)) (name : String) : ℚ :=
  match md.find? (fun p => p.1 = name) with
  | some p => p.2.score
  | Option.none => qnat 0

/-- `label.strip("'\"")`: strip quote characters from both ends. -/
def stripQuotes (s : String) : String :=
  let isQ := fun (c : Char) => c = '"' || c = Char.ofNat 39
  String.mk (((s.toList.dropWhile isQ).reverse.dropWhile isQ).reverse)

/-- `_resolve_column`: exact normalised-name match, then best
token-overlap ratio, then best fuzzy ratio; ties keep the first column
in dataset order (strict improvement required). -/
def _resolve_column (label : String) (columns : List Column) : Option String :=
  let normalized_label := _normalize (stripQuotes label)
  if normalized_label = "" then Option.none
  else
    match columns.find? (fun c => normalized_label = _normalize c.name) with
    | some c => some c.name
    | Option.none =>
        let label_tokens := pySplitWs normalized_label
        let tokenBest :=
          if label_tokens ≠ [] then
            (columns.foldl
              (fun (best : ℚ × Option String) c =>
                let normalized_name := _normalize c.name
                if normalized_name = "" then best
                else
                  let name_tokens := pySplitWs normalized_name
                  let overlap := (label_tokens.filter (fun t => name_tokens.contains t)).length
                  if overlap ≠ 0 then
                    let score : ℚ := qdiv (qnat overlap) (qnat (max label_tokens.length name_tokens.length))
                    if qlt best.1 score then (score, some c.name) else best
                  else best)
              (qnat 0, Option.none)).2
          else Option.none
        match tokenBest with
        | some n => some n
        | Option.none =>
            (columns.foldl
              (fun (best : ℚ × Option String) c =>
                let normalized_name := _normalize c.name
                if normalized_name = "" then best
                else
                  let similarity := diffRatio normalized_label normalized_name
                  if qlt best.1 similarity then (similarity, some c.name) else best)
              (qnat 0, Option.none)).2

/-- `_resolve_field_from_tokens`. -/
def _resolve_field_from_tokens (tokens : List String) (columns : List Column) : Option String :=
  let normalized_tokens := (tokens.filter (· ≠ "")).map _normalize
  if normalized_tokens = [] then Option.none
  else _resolve_column (String.intercalate " " normalized_tokens) columns

/-- `_extract_dimension_from_query`: after the first of
`by/per/grouped by/versus/vs` (pattern list order), resolve the next
three tokens. -/
def _extract_dimension_from_query (query : String) (columns : List Column) : Option String :=
  let lowered := pyLower query
  [" by ", " per ", " grouped by ", " versus ", " vs "].findSome? (fun pattern =>
    match pySplitOnce lowered pattern with
    | some (_, segment) => _resolve_field_from_tokens ((pySplitWs segment).take 3) columns
    | Option.none => Option.none)

/-- `_detect_explicit_chart_type`: time-series phrases force Line, then
the keyword map in insertion order. -/
def _detect_explicit_chart_type (query : String) : Option String :=
  let lowered := pyLower query
  if strContains lowered "over time" || strContains lowered "over-time" ||
     strContains lowered "time series" || strContains lowered "timeseries" then some "Line"
  else
    ([("line", "Line"), ("line chart", "Line"), ("line graph", "Line"),
      ("bar", "Bar"), ("bar chart", "Bar"), ("bar graph", "Bar"),
      ("column", "Bar"), ("trend", "Line"), ("timeline", "Line"),
      ("pie", "Pie"), ("doughnut", "Doughnut"), ("donut", "Doughnut"),
      ("scatter", "Scatter"), ("bubble", "Scatter"),
      ("histogram", "Histogram"), ("distribution", "Histogram")]).findSome?
      (fun p => if strContains lowered p.1 then some p.2 else Option.none)

/-- `_find_mentioned_columns`: position of a verbatim hit (nonempty
names only), else of an exact normalised phrase hit; stable sort by
position; deduplicate keeping first. -/
def _find_mentioned_columns (query : String) (columns : List Column) : List String :=
  let normalized_query := _normalize query
  let mentions : List (Nat × String) :=
    columns.filterMap (fun col =>
      let name := col.name
      let normalized_name := _normalize name
      let posVerbatim : Option Nat :=
        if name ≠ "" then verbatimSearch name query else Option.none
      let position : Option Nat :=
        match posVerbatim with
        | some i => some i
        | Option.none =>
            if normalized_name ≠ "" && normalized_query ≠ "" then
              strFind (" " ++ normalized_query ++ " ") (" " ++ normalized_name ++ " ")
            else Option.none
      position.map (fun i => (i, name)))
  let sorted := stableSortBy (fun a b => decide (a.1 ≤ b.1)) mentions
  (sorted.map (·.2)).eraseDups

/-- Python truthiness of an optional column name (`None` and the empty
string are falsy). -/
def truthyOpt : Option String → Bool
  | some s => s ≠ ""
  | Option.none => false

/-- The resolved field roles. -/
structure Fields where
  value : Option String := Option.none
  secondary_value : Option String := Option.none
  category : Option String := Option.none
  time : Option String := Option.none
  deriving DecidableEq, Repr

/-- `len({str(value) for value in values if value not in (None, "")})`. -/
def uniqueStrCount (values : List Py) : Nat :=
  (((values.filter (fun v => ¬ isNullish v)).map pyStr).eraseDups).length

/-- `_choose_chart_type`. -/
def _choose_chart_type (query : String) (fields : Fields) (columns : List Column) : String :=
  let query_lower := pyLower query
  let explicitPhrase :=
    ([("bar chart", "Bar"), ("line chart", "Line"), ("pie chart", "Pie"),
      ("doughnut chart", "Doughnut"), ("scatter plot", "Scatter"),
      ("histogram", "Histogram")]).findSome?
      (fun p => if strContains query_lower p.1 then some p.2 else Option.none)
  match explicitPhrase with
  | some chart => chart
  | Option.none =>
    match _detect_explicit_chart_type query with
    | some chart => chart
    | Option.none =>
      let has_time := truthyOpt fields.time
      let has_category := truthyOpt fields.category
      let has_value := truthyOpt fields.value
      let has_secondary := truthyOpt fields.secondary_value
      let share_keywords := ["share", "percentage", "percent", "portion", "breakdown"]
      let scatter_keywords := ["scatter", "versus", "vs", "against"]
      if (has_secondary || scatter_keywords.any (fun k => strContains query_lower k)) &&
         (has_value && has_secondary) then "Scatter"
      else if has_time then "Line"
      else
        let category_cardinality : Option Nat :=
          if has_category then
            match columns.find? (fun c => some c.name = fields.category) with
            | some category_meta =>
                match category_meta.uniqueCount with
                | some n => some n
                | Option.none => some (uniqueStrCount category_meta.values)
            | Option.none => Option.none
          else Option.none
        if has_category && (has_value || ¬ has_value) &&
           share_keywords.any (fun k => strContains query_lower k) &&
           (category_cardinality.isNone || category_cardinality.getD 0 ≤ 8) then "Pie"
        else if has_category && has_value then "Bar"
        else if has_category && ¬ has_value then "Bar"
        else if has_value && has_secondary then "Scatter"
        else "Bar"

/-! ### Filters -/

structure Filter where
  column : String
  operator : String
  value : Py
  raw : String
  deriving DecidableEq, Repr

/-- Match `([^!=<>]+?)\s*(=|!=|>=|<=|>|<)\s*(.+)` against the (already
stripped) filter text. The operator can only start at the first
occurrence of an operator character (the lazy column and the
whitespace cannot absorb one), `!` must be followed by `=`, and the
alternation order makes `>`/`<` two-character when followed by `=`.
Group 3 is the greedy remainder (directive spans contain no newline);
when only whitespace remains the greedy `\s*` backtracks one character
into it. -/
def parseFilterText (s : String) : Option (String × String × String) :=
  let cs := s.toList
  let isOpChar := fun (c : Char) => c = '=' || c = '!' || c = '<' || c = '>'
  let k := (cs.takeWhile (fun c => ¬ isOpChar c)).length
  if k = 0 || decide (k ≥ cs.length) then Option.none
  else
    let pre := cs.take k
    let wsRun := (pre.reverse.takeWhile isPySpace).length
    let i := max 1 (k - wsRun)
    let columnHint := String.mk (cs.take i)
    let opAndRest : Option (String × List Char) :=
      match cs.drop k with
      | '=' :: r => some ("=", r)
      | '!' :: '=' :: r => some ("!=", r)
      | '>' :: '=' :: r => some (">=", r)
      | '>' :: r => some (">", r)
      | '<' :: '=' :: r => some ("<=", r)
      | '<' :: r => some ("<", r)
      | _ => Option.none
    match opAndRest with
    | Option.none => Option.none
    | some (op, rest) =>
        let afterWs := rest.dropWhile isPySpace
        if afterWs ≠ [] then some (columnHint, op, String.mk afterWs)
        else if rest ≠ [] then some (columnHint, op, String.mk [rest.getLastD ' '])
        else Option.none

/-- `_parse_filters`. -/
def _parse_filters (filter_texts : List String) (columns : List Column) : List Filter :=
  filter_texts.filterMap (fun raw =>
    match parseFilterText (pyStrip raw) with
    | Option.none => Option.none
    | some (column_hint, operator, value_group) =>
        match _resolve_column column_hint columns with
        | Option.none => Option.none
        | some column_name =>
            let value_text := stripQuotes (pyStrip value_group)
            let value : Py :=
              match _safe_float (Py.str value_text) with
              | some q => Py.float q
              | Option.none => Py.str value_text
            some { column := column_name, operator := operator,
                   value := value, raw := pyStrip raw })

/-- Lexicographic code-point order on strings (Python `str` order). -/
def charListLt : List Char → List Char → Bool
  | [], [] => false
  | [], _ :: _ => true
  | _ :: _, [] => false
  | a :: as, b :: bs =>
      if a.toNat < b.toNat then true
      else if a = b then charListLt as bs else false

def strLtB (a b : String) : Bool := charListLt a.toList b.toList

def strLeB (a b : String) : Bool := ¬ strLtB b a

/-- Comparison dispatch on rationals for a filter operator. -/
def cmpQ (op : String) (a b : ℚ) : Bool :=
  if op = "=" then a == b
  else if op = "!=" then ¬ a == b
  else if op = ">" then qlt b a
  else if op = "<" then qlt a b
  else if op = ">=" then qle b a
  else if op = "<=" then qle a b
  else false

/-- Comparison dispatch on strings. -/
def cmpStr (op : String) (a b : String) : Bool :=
  if op = "=" then a == b
  else if op = "!=" then ¬ a == b
  else if op = ">" then strLtB b a
  else if op = "<" then strLtB a b
  else if op = ">=" then strLeB b a
  else if op = "<=" then strLeB a b
  else false

/-- Python `isinstance(target, (int, float))` (`bool` is an `int`). -/
def targetIsNumeric : Py → Bool
  | .int _ => true
  | .float _ => true
  | .bool _ => true
  | _ => false

def targetQ : Py → ℚ
  | .int n => qint n
  | .float q => q
  | .bool b => if b then qnat 1 else qnat 0
  | _ => qnat 0

/-- The `_passes` closure of `_apply_filters`: a missing or `None`
field fails; numeric targets compare against the `_safe_float`
coercion of the row value (non-coercible fails); string targets
compare against the stripped row string; comparing a non-string row
value with a string target is unequal (and ordered comparisons raise
`TypeError`, caught as failure). -/
def _passes (row : Record) (flt : Filter) : Bool :=
  let raw_value := rowGetNone row flt.column
  if raw_value == Py.none then false
  else if targetIsNumeric flt.value then
    match _safe_float raw_value with
    | some rv => cmpQ flt.operator rv (targetQ flt.value)
    | Option.none => false
  else
    match raw_value, flt.value with
    | Py.str s, Py.str t => cmpStr flt.operator (pyStrip s) t
    | _, _ => if flt.operator = "!=" then true else false

/-- `_apply_filters`: logical AND of all filters over each row. -/
def _apply_filters (dataset : List Record) (filters : List Filter) : List Record :=
  if filters = [] then dataset
  else dataset.filter (fun row => filters.all (fun flt => _passes row flt))

/-! ### `interpret_nl_query`

The main entry of `nlp_interpreter.py` (lines 472–669). Its imperative
body is embedded as a chain of named stages, each mirroring one
contiguous block of the source and passing the field state explicitly. -/

/-- `column_lookup = {col["name"]: col for col in columns}`:
later bindings overwrite earlier ones. -/
def columnLookup (columns : List Column) (name : String) : Option Column :=
  columns.reverse.find? (fun c => c.name = name)

/-- The `_best_match` closure (lines 515–530): first query-mentioned
candidate whose score clears the bar, else the highest-scoring
candidate above `min_score` (strict; ties keep dataset order). -/
def _best_match (mentioned_columns : List String) (md : List (String × MatchDetail))
    (candidates : List String) (min_score : ℚ) : Option String :=
  match
    mentioned_columns.findSome? (fun mentioned =>
      if candidates.contains mentioned &&
         (qle min_score (mdScore md mentioned) || min_score = qnat 0)
      then some mentioned else Option.none)
  with
  | some n => some n
  | Option.none =>
      (candidates.foldl
        (fun (best : Option String × ℚ) name =>
          let score := mdScore md name
          if qlt best.2 score then (some name, score) else best)
        (Option.none, min_score)).1

/-- Directive seeding of the value field (lines 489–492): a literal
`count`/`records`/`rows` means no numeric field; anything else is
resolved against the columns. -/
def directiveSeedValue (directives : List (String × List String))
    (columns : List Column) : Option String :=
  match getDirective directives "value" with
  | some (hint :: _) =>
      let value_hint := pyStrip hint
      if [("count" : String), "records", "rows"].contains (pyLower value_hint)
      then Option.none
      else _resolve_column value_hint columns
  | _ => Option.none

/-- Directive seeding of a single-column field (`dimension`, `time`). -/
def directiveSeedField (directives : List (String × List String))
    (columns : List Column) (key : String) : Option String :=
  match getDirective directives key with
  | some (hint :: _) => _resolve_column hint columns
  | _ => Option.none

/-- One step of the explicit-mention assignment loop (lines 533–543):
fill the first unfilled slot matching the mentioned column's type. -/
def mentionAssignStep (columns : List Column) (st : Fields) (name : String) : Fields :=
  match columnLookup columns name with
  | Option.none => st
  | some meta =>
      if meta.type = "temporal" && ¬ truthyOpt st.time then { st with time := some name }
      else if meta.type = "numeric" && ¬ truthyOpt st.value then { st with value := some name }
      else if meta.type = "categorical" && ¬ truthyOpt st.category then { st with category := some name }
      else st

/-- Lines 533–543: assign fields from explicit mentions in order of
appearance. -/
def mentionAssign (columns : List Column) (mentioned : List String) (st : Fields) : Fields :=
  mentioned.foldl (mentionAssignStep columns) st

/-- Lines 546–549: fill a missing value field from the best-scored
numeric candidate, else the sole numeric candidate. -/
def fillValueField (mentioned : List String) (md : List (String × MatchDetail))
    (numeric_candidates : List String) (value : Option String) : Option String :=
  if ¬ truthyOpt value then
    let v1 := _best_match mentioned md numeric_candidates (mkRat 1 10)
    if ¬ truthyOpt v1 && numeric_candidates.length = 1 then numeric_candidates.head?
    else v1
  else value

/-- Lines 551–554: same for the category field. -/
def fillCategoryField (mentioned : List String) (md : List (String × MatchDetail))
    (categorical_candidates : List String) (category : Option String) : Option String :=
  if ¬ truthyOpt category then
    let c1 := _best_match mentioned md categorical_candidates (mkRat 1 10)
    if ¬ truthyOpt c1 && categorical_candidates.length = 1 then categorical_candidates.head?
    else c1
  else category

/-- Lines 568–571: fill a missing time field from the best temporal
candidate, else (on trend language) the first temporal candidate. -/
def fillTimeField (mentioned : List String) (md : List (String × MatchDetail))
    (temporal_candidates : List String) (mentions_time : Bool)
    (time : Option String) : Option String :=
  if ¬ truthyOpt time then
    let t1 := _best_match mentioned md temporal_candidates (mkRat 1 10)
    if ¬ truthyOpt t1 && mentions_time && temporal_candidates ≠ [] then temporal_candidates.head?
    else t1
  else time

/-- Lines 574–593: when a line/time chart was explicitly requested but
no time field resolved, fall back to the highest temporal score, then
to any ranked temporal column, then repurpose the category field as
time. Returns the updated (time, category). -/
def explicitLineFallback (columns : List Column) (ranked_temporal : List String)
    (value : Option String) (time category : Option String)
    (explicit_line_requested : Bool) : Option String × Option String :=
  if explicit_line_requested && ¬ truthyOpt time then
    let t1 :=
      ranked_temporal.findSome? (fun name =>
        if name ≠ "" && some name ≠ value &&
           qlt (qnat 0) (((columnLookup columns name).map Column.temporalScore).getD (qnat 0))
        then some name else Option.none)
    let t1 := if truthyOpt t1 then t1 else time
    let t2 := if ¬ truthyOpt t1 && ranked_temporal ≠ [] then ranked_temporal.head? else t1
    if ¬ truthyOpt t2 && truthyOpt category then (category, Option.none)
    else (t2, category)
  else (time, category)

/-- Lines 596–599: trend language without an explicit grouping phrase
drops the category to avoid double grouping. -/
def groupingDrop (query_lower : String) (directives : List (String × List String))
    (mentions_time : Bool) (time category : Option String) : Option String :=
  if mentions_time && truthyOpt time && (getDirective directives "dimension").isNone then
    if ¬ ([" by ", " per ", " versus ", " vs ", " against "].any
        (fun kw => strContains query_lower kw))
    then Option.none else category
  else category

/-- Lines 602–606: conflict resolution. Category equal to time drops
the category; value equal to time is replaced by the next other
numeric candidate (or dropped). Returns (value, category). -/
def conflictResolve (numeric_candidates : List String)
    (value category time : Option String) : Option String × Option String :=
  let category :=
    if truthyOpt category && truthyOpt time && category = time then Option.none else category
  let value :=
    if truthyOpt time && truthyOpt value && value = time then
      numeric_candidates.findSome? (fun n => if some n ≠ time then some n else Option.none)
    else value
  (value, category)

/-- Lines 609–626: scatter detection assigns the two highest-scored
numeric columns (else the first two in dataset order) to
value/secondary. Returns (value, secondary). -/
def scatterAssign (md : List (String × MatchDetail)) (numeric_candidates : List String)
    (scatter_requested : Bool) (value secondary : Option String) :
    Option String × Option String :=
  if scatter_requested then
    let numeric_scores :=
      stableSortBy (fun a b => ¬ pairLtQS a b)
        (numeric_candidates.map (fun name => (mdScore md name, name)))
    let ranked_numeric := (numeric_scores.filter (fun p => qlt (qnat 0) p.1)).map (·.2)
    if ranked_numeric.length ≥ 2 then
      let value := if ¬ truthyOpt value then ranked_numeric.head? else value
      let secondary :=
        if ¬ truthyOpt secondary || secondary = value then ranked_numeric.get? 1 else secondary
      (value, secondary)
    else if numeric_candidates.length ≥ 2 then
      let value := if ¬ truthyOpt value then numeric_candidates.head? else value
      let secondary :=
        if ¬ truthyOpt secondary || secondary = value then numeric_candidates.get? 1 else secondary
      (value, secondary)
    else (value, secondary)
  else (value, secondary)
where
  /-- Python tuple `<` on (score, name) pairs. -/
  pairLtQS (a b : ℚ × String) : Bool := qlt a.1 b.1 || (a.1 = b.1 && strLtB a.2 b.2)

/-- Lines 628–629: clear a secondary value that clashes with the value
field or a (truthy) time field. -/
def finalSecondaryGuard (value time secondary : Option String) : Option String :=
  if secondary = value || (truthyOpt time && secondary = time) then Option.none else secondary

/-- The interpretation record returned to the builder. -/
structure Interpretation where
  intent : String
  chart_type : String
  fields : Fields
  filters : List Filter
  matchDetails : List (String × MatchDetail)
  deriving DecidableEq, Repr

/-- `interpret_nl_query` (nlp_interpreter.py, lines 472–669). -/
def interpret_nl_query (query : String) (columns : List Column) : Interpretation :=
  let directives := _parse_directives query
  let query_lower := pyLower query
  let match_details := _score_columns query columns
  let explicit_chart := _detect_explicit_chart_type query
  let mentioned_columns := _find_mentioned_columns query columns
  -- directive hints (lines 489–496)
  let value_field := directiveSeedValue directives columns
  let category_field := directiveSeedField directives columns "dimension"
  let time_field := directiveSeedField directives columns "time"
  -- dimension via grouping phrases (lines 499–500)
  let category_field :=
    if ¬ truthyOpt category_field then _extract_dimension_from_query query columns
    else category_field
  -- candidate pools (lines 502–512)
  let temporal_candidates := (columns.filter (fun c => c.type = "temporal")).map Column.name
  let numeric_candidates := (columns.filter (fun c => c.type = "numeric")).map Column.name
  let categorical_candidates := (columns.filter (fun c => c.type = "categorical")).map Column.name
  let ranked_temporal :=
    (((stableSortBy (fun a b => ¬ scatterAssign.pairLtQS a b)
        (columns.map (fun c => (c.temporalScore, c.name)))).map (·.2)).filter (· ≠ ""))
  -- explicit mentions (lines 533–543)
  let st := mentionAssign columns mentioned_columns
    { value := value_field, secondary_value := Option.none,
      category := category_field, time := time_field }
  -- fill remaining slots (lines 546–554)
  let value_field := fillValueField mentioned_columns match_details numeric_candidates st.value
  let category_field :=
    fillCategoryField mentioned_columns match_details categorical_candidates st.category
  -- trend language (lines 556–566)
  let time_keywords := ["over time", "trend", "timeline", "by month", "by year",
    "monthly", "weekly", "daily"]
  let mentions_time := time_keywords.any (fun k => strContains query_lower k)
  -- time fill and explicit-line fallback (lines 568–593)
  let time_field :=
    fillTimeField mentioned_columns match_details temporal_candidates mentions_time st.time
  let explicit_line_requested :=
    explicit_chart = some "Line" || strContains query_lower "over time" ||
    strContains query_lower "over-time" || strContains query_lower "time series" ||
    strContains query_lower "timeseries"
  let tc := explicitLineFallback columns ranked_temporal value_field time_field category_field
    explicit_line_requested
  let time_field := tc.1
  let category_field := tc.2
  -- double-grouping avoidance (lines 596–599)
  let category_field :=
    groupingDrop query_lower directives mentions_time time_field category_field
  -- conflicts (lines 602–606)
  let vc := conflictResolve numeric_candidates value_field category_field time_field
  let value_field := vc.1
  let category_field := vc.2
  -- scatter (lines 609–626)
  let scatter_requested :=
    ["scatter", "versus", "vs", "against"].any (fun k => strContains query_lower k)
  let vs := scatterAssign match_details numeric_candidates scatter_requested
    value_field Option.none
  let value_field := vs.1
  let secondary_value := vs.2
  -- final guard (lines 628–629)
  let secondary_value := finalSecondaryGuard value_field time_field secondary_value
  -- chart type (lines 632–643)
  let fields : Fields :=
    { value := value_field, secondary_value := secondary_value,
      category := category_field, time := time_field }
  let chart_type := _choose_chart_type query fields columns
  let chart_type := match explicit_chart with
    | some c => c
    | Option.none => chart_type
  let filters := _parse_filters ((getDirective directives "filter").getD []) columns
  { intent := _detect_visual_intent query,
    chart_type := chart_type,
    fields := fields,
    filters := filters,
    matchDetails :=
      stableSortBy (fun a b => qle b.2.score a.2.score) match_details }

/-! ### `chart_builder.py`

The aggregation pipeline. Python code here can raise (`ValueError` from
tuple-unpacking a string), so the fallible parts return `Except PyErr`.
Presentation-only constants of the source (palette colours, tension,
point radii, hover colours, border widths) are omitted from the
payloads; the structural keys (`labels`, `datasets`' `label`/`data`,
and all of `meta`) are embedded. -/

inductive PyErr where
  | valueError : PyErr
  deriving DecidableEq, Repr

structure ChartDataset where
  label : String
  data : List Py
  deriving DecidableEq, Repr

structure Legend where
  display : Bool
  position : Option String := Option.none
  deriving DecidableEq, Repr

structure ChartMeta where
  chartType : String
  fields : Fields
  sortedLabels : Bool
  axisLabels : List (String × String)
  series : Option (String × Option (List String))
  timeGranularity : Option String
  xScaleType : Option String
  beginAtZero : Option Bool
  legend : Legend
  deriving DecidableEq, Repr

structure ChartPayload where
  labels : List String
  datasets : List ChartDataset
  meta : ChartMeta
  deriving DecidableEq, Repr

/-- `value_field or "Count"` (Python `or` on an optional string). -/
def orStr (o : Option String) (d : String) : String :=
  if truthyOpt o then o.getD d else d

/-- `_limit_categories`: all keys when within the limit, else the top
`limit` by total (stable descending, ties by first appearance —
`Counter.most_common`). -/
def _limit_categories (category_totals : List (Py × ℚ)) (limit : Nat := 10) : List Py :=
  if category_totals.length ≤ limit then category_totals.map (·.1)
  else ((stableSortBy (fun a b => qle b.2 a.2) category_totals).take limit).map (·.1)

/-- `_value_axis_label`. -/
def _value_axis_label (value_field : Option String) (aggregation : String := "Sum") : String :=
  if ¬ truthyOpt value_field then "Record Count"
  else aggregation ++ " of " ++ value_field.getD ""

/-- A time bucket: its chronological sort key and its per-series
totals (`defaultdict(float)` in insertion order). -/
structure Bucket where
  sort : String
  values : List (Py × ℚ)
  deriving DecidableEq, Repr

/-- `defaultdict(float)` update: add `q` under `k`. -/
def addToAssoc (l : List (Py × ℚ)) (k : Py) (q : ℚ) : List (Py × ℚ) :=
  match l with
  | [] => [(k, q)]
  | (k', v) :: rest => if k' = k then (k', qadd v q) :: rest else (k', v) :: addToAssoc rest k q

def assocGetQ (l : List (Py × ℚ)) (k : Py) : ℚ :=
  match l.find? (fun p => p.1 = k) with
  | some p => p.2
  | Option.none => qnat 0

/-- Add `q` under series key `k` inside bucket `label`. -/
def updBucketValues (tb : List (String × Bucket)) (label : String) (k : Py) (q : ℚ) :
    List (String × Bucket) :=
  tb.map (fun p =>
    if p.1 = label then (p.1, { p.2 with values := addToAssoc p.2.values k q }) else p)

/-- One loop iteration of the builder's `_aggregate_time_series`
(chart_builder.py lines 56–83). The Python line
`label, sort_key = _format_time_bucket(row.get(time_field), granularity)`
unpacks the *string* returned by `temporal_utils._format_time_bucket`;
that raises `ValueError` unless the string has exactly two characters
(in which case the two characters become label and sort key). The
bucket is created before the value coercion check, so a bucket can
exist with no accumulated series values. -/
def aggregateRow (time_field : String) (granularity : Option String)
    (category_field value_field : Option String) (value_key : String)
    (st : List (String × Bucket) × List (Py × ℚ)) (row : Record) :
    Except PyErr (List (String × Bucket) × List (Py × ℚ)) :=
  let s := _format_time_bucket (rowGetNone row time_field) granularity
  if s.length = 2 then
    let label := String.mk [s.toList.headD ' ']
    let sort_key := String.mk [(s.toList.drop 1).headD ' ']
    let tb0 := st.1
    let tb :=
      if (tb0.find? (fun p => p.1 = label)).isSome then tb0
      else tb0 ++ [(label, { sort := sort_key, values := [] })]
    if truthyOpt category_field then
      let cf := category_field.getD ""
      let category_value := rowGetD row cf (Py.str "Other")
      if truthyOpt value_field then
        match _safe_float (rowGetNone row (value_field.getD "")) with
        | Option.none => .ok (tb, st.2)
        | some numeric =>
            .ok (updBucketValues tb label category_value numeric,
                 addToAssoc st.2 category_value numeric)
      else
        .ok (updBucketValues tb label category_value (qnat 1), addToAssoc st.2 category_value (qnat 1))
    else
      if truthyOpt value_field then
        match _safe_float (rowGetNone row (value_field.getD "")) with
        | Option.none => .ok (tb, st.2)
        | some numeric => .ok (updBucketValues tb label (Py.str value_key) numeric, st.2)
      else
        .ok (updBucketValues tb label (Py.str value_key) (qnat 1), st.2)
  else .error .valueError

/-- `_aggregate_time_series` (chart_builder.py lines 43–85). -/
def _aggregate_time_series (dataset : List Record) (time_field : String)
    (granularity : Option String) (category_field value_field : Option String) :
    Except PyErr (List (String × Bucket) × List (Py × ℚ)) :=
  let value_key := orStr value_field "Count"
  dataset.foldl
    (fun acc row =>
      match acc with
      | .error e => .error e
      | .ok st => aggregateRow time_field granularity category_field value_field value_key st row)
    (.ok ([], []))

/-- `_finalize_chart` (chart_builder.py lines 107–172): attach the
metadata, with the legend defaulting by chart type. -/
def _finalize_chart (chart_type : String) (fieldsIn : Fields)
    (labels : List String) (datasets : List ChartDataset)
    (axis_x axis_y : Option String) (series_field : Option String)
    (series_values : Option (List String)) (legend : Option Bool)
    (legend_position : Option String) (sorted_labels : Bool)
    (time_granularity : Option String) (x_scale_type : Option String)
    (begin_at_zero : Option Bool) : ChartPayload :=
  let legendVal :=
    match legend with
    | some b => b
    | Option.none =>
        if chart_type = "Pie" || chart_type = "Doughnut" then true
        else if chart_type = "Scatter" then false
        else datasets.length > 1
  { labels := labels, datasets := datasets,
    meta :=
      { chartType := chart_type,
        fields := fieldsIn,
        sortedLabels := sorted_labels,
        axisLabels := (match axis_x with | some x => [("x", x)] | Option.none => []) ++
          (match axis_y with | some y => [("y", y)] | Option.none => []),
        series := series_field.map (fun f => (f, series_values)),
        timeGranularity := time_granularity,
        xScaleType := x_scale_type,
        beginAtZero := begin_at_zero,
        legend := { display := legendVal, position := legend_position } } }

/-- `int(len(values) ** 0.5)`: the integer square root (largest `k`
with `k * k ≤ n`), written structurally so it evaluates in the kernel.
Python computes it through a correctly-rounded float power, which
agrees with the integer square root for all realistic dataset sizes. -/
def intSqrt (n : Nat) : Nat :=
  ((List.range (n + 1)).filter (fun k => k * k ≤ n)).length - 1

/-- `round(q, 2)` followed by `str(·)` for the histogram edge labels
(approximates Python's float formatting; cosmetic only). -/
def fmtEdge (q : ℚ) : String :=
  pyStr (Py.float (qdiv (qint (qroundInt (qmul q (qnat 100)))) (qnat 100)))

/-- The histogram frequency loop: each numeric value increments the
bin `min(int((value - min)/step), bins - 1)`. -/
def histFreqs (values : List ℚ) (min_val step : ℚ) (bins : Nat) : List Nat :=
  values.foldl
    (fun freqs v =>
      let idx := min (qtruncNat (qdiv (qsub v min_val) step)) (bins - 1)
      freqs.set idx (freqs.getD idx 0 + 1))
    (List.replicate bins 0)

/-- `sorted(time_buckets.keys(), key=lambda lbl: buckets[lbl]["sort"])`. -/
def sortBuckets (tb : List (String × Bucket)) : List (String × Bucket) :=
  stableSortBy (fun a b => strLeB a.2.sort b.2.sort) tb

def granularityLabel (granularity : Option String) : String :=
  if granularity = some "year" then "Year"
  else if granularity = some "quarter" then "Quarter"
  else if granularity = some "month" then "Month"
  else if granularity = some "date" then "Day"
  else "Time"

/-- The Scatter branch of `_build_chart_data` (lines 174-208). -/
def buildScatter (chart_type : String) (dataset : List Record) (fields : Fields) :
    Except PyErr (Option ChartPayload × String) :=
  -- Scatter branch (lines 174–208)
  let vf := fields.value.getD ""
  let sf := fields.secondary_value.getD ""
  let points : List Py := dataset.filterMap (fun row =>
    match _safe_float (rowGetNone row vf), _safe_float (rowGetNone row sf) with
    | some x_val, some y_val =>
        some (Py.dict [("x", Py.float x_val), ("y", Py.float y_val)])
    | _, _ => Option.none)
  if points = [] then .ok (Option.none, "Not enough numeric values to build a scatter plot.")
  else
    .ok (some (_finalize_chart chart_type fields []
            [{ label := sf ++ " vs " ++ vf, data := points }]
            (some (orStr fields.value "Value")) (some (orStr fields.secondary_value "Comparison"))
            Option.none Option.none (some false) Option.none false Option.none
            (some "linear") (some false)),
         "scatter of " ++ sf ++ " versus " ++ vf)

/-- The Line-with-time branch of `_build_chart_data` (lines 210-298). -/
def buildLineTime (chart_type : String) (dataset : List Record) (fields : Fields) :
    Except PyErr (Option ChartPayload × String) :=
  -- Line-with-time branch (lines 210–298)
  let tf := fields.time.getD ""
  let time_values := dataset.map (fun row => rowGetNone row tf)
  let granularity := _infer_temporal_granularity time_values
  match _aggregate_time_series dataset tf granularity fields.category fields.value with
  | .error e => .error e
  | .ok (time_buckets, category_totals) =>
    if time_buckets = [] then .ok (Option.none, "Unable to interpret the requested time field.")
    else
      let sorted0 := sortBuckets time_buckets
      let coarsen := granularity = some "date" && sorted0.length > 60
      let granularity := if coarsen then some "month" else granularity
      let reagg :=
        if coarsen then _aggregate_time_series dataset tf granularity fields.category fields.value
        else .ok (time_buckets, category_totals)
      match reagg with
      | .error e => .error e
      | .ok (time_buckets, category_totals) =>
        let sorted := if coarsen then sortBuckets time_buckets else sorted0
        if sorted = [] then .ok (Option.none, "Unable to interpret the requested time field.")
        else
          let value_key := orStr fields.value "Count"
          let limited_categories : List Py :=
            if truthyOpt fields.category then
              let lc := if category_totals ≠ [] then _limit_categories category_totals else []
              if lc = [] then ((sorted.headD ("", ⟨"", []⟩)).2.values.map (·.1)) else lc
            else [Py.str value_key]
          let series_names : Option (List String) :=
            if truthyOpt fields.category then some (limited_categories.map pyStr)
            else Option.none
          let datasets : List ChartDataset := limited_categories.map (fun category =>
            { label := pyStr category,
              data := sorted.map (fun p => Py.float (assocGetQ p.2.values category)) })
          let axis_x_label :=
            if truthyOpt fields.time then tf ++ " (" ++ granularityLabel granularity ++ ")"
            else granularityLabel granularity
          let axis_y_label := _value_axis_label fields.value
          .ok (some (_finalize_chart chart_type fields (sorted.map (·.1)) datasets
                  (some axis_x_label) (some axis_y_label) fields.category series_names
                  Option.none Option.none true granularity (some "category") (some true)),
               pyLower axis_y_label ++ " across " ++ pyLower axis_x_label)

/-- The Pie/Doughnut branch of `_build_chart_data` (lines 300-339). -/
def buildPieLike (chart_type : String) (dataset : List Record) (fields : Fields) :
    Except PyErr (Option ChartPayload × String) :=
  -- Pie/Doughnut branch (lines 300–339)
  let cf := fields.category.getD ""
  let totals := dataset.foldl
    (fun totals row =>
      let category_value := rowGetD row cf (Py.str "Other")
      if truthyOpt fields.value then
        match _safe_float (rowGetNone row (fields.value.getD "")) with
        | Option.none => totals
        | some numeric => addToAssoc totals category_value numeric
      else addToAssoc totals category_value 1)
    []
  if totals = [] then .ok (Option.none, "No measurable values found for the requested fields.")
  else
    let labels := _limit_categories totals
    let label_strings := labels.map pyStr
    let axis_y_label := _value_axis_label fields.value
    .ok (some (_finalize_chart chart_type fields label_strings
            [{ label := axis_y_label, data := labels.map (fun l => Py.float (assocGetQ totals l)) }]
            Option.none Option.none fields.category (some label_strings)
            (some true) (some "right") false Option.none Option.none Option.none),
         pyLower axis_y_label ++ " by " ++ cf)

/-- The Bar-with-category branch of `_build_chart_data` (lines 341-381). -/
def buildBarCategory (chart_type : String) (dataset : List Record) (fields : Fields) :
    Except PyErr (Option ChartPayload × String) :=
  -- Bar-with-category branch (lines 341–381)
  let cf := fields.category.getD ""
  let totals := dataset.foldl
    (fun totals row =>
      let category_value := rowGetD row cf (Py.str "Other")
      if truthyOpt fields.value then
        match _safe_float (rowGetNone row (fields.value.getD "")) with
        | Option.none => totals
        | some numeric => addToAssoc totals category_value numeric
      else addToAssoc totals category_value 1)
    []
  if totals = [] then .ok (Option.none, "No measurable values found for the requested fields.")
  else
    let labels := _limit_categories totals
    let label_strings := labels.map pyStr
    let axis_y_label := _value_axis_label fields.value
    .ok (some (_finalize_chart chart_type fields label_strings
            [{ label := axis_y_label, data := labels.map (fun l => Py.float (assocGetQ totals l)) }]
            (some cf) (some axis_y_label) Option.none Option.none
            Option.none Option.none false Option.none Option.none (some true)),
         pyLower axis_y_label ++ " by " ++ cf)

/-- The Bar-with-time branch of `_build_chart_data` (lines 383-438). -/
def buildBarTime (chart_type : String) (dataset : List Record) (fields : Fields) :
    Except PyErr (Option ChartPayload × String) :=
  -- Bar-with-time branch (lines 383–438)
  let tf := fields.time.getD ""
  let time_values := dataset.map (fun row => rowGetNone row tf)
  let granularity := _infer_temporal_granularity time_values
  match _aggregate_time_series dataset tf granularity Option.none fields.value with
  | .error e => .error e
  | .ok (time_buckets, _) =>
    if time_buckets = [] then
      .ok (Option.none, "Unable to build a chart with the requested fields.")
    else
      let sorted := sortBuckets time_buckets
      let axis_x_label :=
        if truthyOpt fields.time then tf ++ " (" ++ granularityLabel granularity ++ ")"
        else granularityLabel granularity
      let axis_y_label := _value_axis_label fields.value
      let value_key := orStr fields.value "Count"
      .ok (some (_finalize_chart chart_type fields (sorted.map (·.1))
              [{ label := axis_y_label,
                 data := sorted.map (fun p => Py.float (assocGetQ p.2.values (Py.str value_key))) }]
              (some axis_x_label) (some axis_y_label) Option.none Option.none
              Option.none Option.none true granularity (some "category") (some true)),
           pyLower axis_y_label ++ " by " ++ pyLower axis_x_label)

/-- The Histogram branch of `_build_chart_data` (lines 440-483). -/
def buildHistogram (chart_type : String) (dataset : List Record) (fields : Fields) :
    Except PyErr (Option ChartPayload × String) :=
  -- Histogram branch (lines 440–483)
  let vf := fields.value.getD ""
  let values0 := dataset.filterMap (fun row => _safe_float (rowGetNone row vf))
  if values0 = [] then .ok (Option.none, "No numeric values available for the requested field.")
  else
    let values := stableSortBy (fun a b => qle a b) values0
    let bins := min 10 (max 3 (intSqrt values.length))
    let min_val := values.headD (qnat 0)
    let max_val := values.getLastD (qnat 0)
    if min_val = max_val then
      .ok (some (_finalize_chart chart_type fields [pyStr (Py.float min_val)]
              [{ label := vf, data := [Py.int (Int.ofNat values.length)] }]
              (some vf) (some "Frequency") Option.none Option.none
              (some false) Option.none false Option.none Option.none (some true)),
           "distribution of " ++ vf)
    else
      let step := qdiv (qsub max_val min_val) (qnat bins)
      let edges := fun (i : Nat) => qadd min_val (qmul (qnat i) step)
      let frequencies := histFreqs values min_val step bins
      let labels := (List.range bins).map (fun i =>
        fmtEdge (edges i) ++ "â€“" ++ fmtEdge (edges (i + 1)))
      .ok (some (_finalize_chart chart_type fields labels
              [{ label := vf, data := frequencies.map (fun n => Py.int (Int.ofNat n)) }]
              (some vf) (some "Frequency") Option.none Option.none
              (some false) Option.none false Option.none Option.none (some true)),
           "distribution of " ++ vf)

/-- `_build_chart_data` (chart_builder.py lines 94-485): the branch
dispatch on chart type and resolved fields. The source writes the
branch bodies inline; they are the named functions above. -/
def _build_chart_data (chart_type : String) (dataset : List Record) (fields : Fields) :
    Except PyErr (Option ChartPayload × String) :=
  if dataset = [] then .ok (Option.none, "No data available to build a chart.")
  else if chart_type = "Scatter" && truthyOpt fields.value && truthyOpt fields.secondary_value then
    buildScatter chart_type dataset fields
  else if chart_type = "Line" && truthyOpt fields.time then
    buildLineTime chart_type dataset fields
  else if (chart_type = "Pie" || chart_type = "Doughnut") && truthyOpt fields.category then
    buildPieLike chart_type dataset fields
  else if truthyOpt fields.category then
    buildBarCategory chart_type dataset fields
  else if truthyOpt fields.time then
    buildBarTime chart_type dataset fields
  else if truthyOpt fields.value then
    buildHistogram chart_type dataset fields
  else .ok (Option.none, "Unable to determine appropriate fields for charting.")

/-- `build_chart_response` (chart_builder.py lines 488–497): apply the
parsed filters, then build; returns chart data, explanation and the
filtered dataset. -/
def build_chart_response (dataset : List Record) (interpretation : Interpretation) :
    Except PyErr (Option ChartPayload × String × List Record) :=
  let filtered_dataset := _apply_filters dataset interpretation.filters
  match _build_chart_data interpretation.chart_type filtered_dataset interpretation.fields with
  | .ok (chart_data, explanation) => .ok (chart_data, explanation, filtered_dataset)
  | .error e => .error e

/-! ### `nlp_extraction.py`: dataset normalisation and column analysis

`json.loads` and `dateutil.parser.parse` are external libraries and are
passed in as function parameters (`jsonLoads` returns `none` on a
`JSONDecodeError`; `dateutilParses` tells whether a parse attempt
succeeds). -/

mutual

/-- Structural size, used to bound the `extract_dataset` recursion. -/
def pySize : Py → Nat
  | .str s => s.length + 1
  | .list l => 1 + pySizeList l
  | .dict d => 1 + pySizeDict d
  | _ => 1

def pySizeList : List Py → Nat
  | [] => 0
  | x :: xs => pySize x + pySizeList xs

def pySizeDict : List (String × Py) → Nat
  | [] => 0
  | p :: xs => pySize p.2 + pySizeDict xs

end

def isDict : Py → Bool
  | .dict _ => true
  | _ => false

def toRecord : Py → Record
  | .dict kvs => kvs
  | _ => []

/-- `extract_dataset` with explicit recursion fuel. The Python function
recurses through `json.loads` results and wrapper keys; CPython's
`json.loads` always returns a value structurally smaller than its input
text, so `pySize payload + 1` fuel reproduces it exactly. -/
def extract_dataset_core (jsonLoads : String → Option Py) : Nat → Py → List Record
  | 0, _ => []
  | f + 1, payload =>
      match payload with
      | .none => []
      | .str s =>
          match jsonLoads s with
          | some parsed => extract_dataset_core jsonLoads f parsed
          | Option.none => []
      | .list rows => if rows.all isDict then rows.map toRecord else []
      | .dict d =>
          let viaKeys :=
            (["data_preview", "cleanedData", "uploadedData", "rows", "data", "preview"]).findSome?
              (fun key =>
                match d.find? (fun p => p.1 = key) with
                | some p =>
                    let extracted := extract_dataset_core jsonLoads f p.2
                    if extracted ≠ [] then some extracted else Option.none
                | Option.none => Option.none)
          match viaKeys with
          | some extracted => extracted
          | Option.none =>
              let values := d.map (·.2)
              if values ≠ [] && values.all isDict then values.map toRecord else []
      | _ => []

/-- `extract_dataset` (nlp_extraction.py lines 19–52). -/
def extract_dataset (jsonLoads : String → Option Py) (payload : Py) : List Record :=
  extract_dataset_core jsonLoads (pySize payload + 1) payload

/-- The ISO-shape regex of `_temporal_score`: four digits, a dash or
slash, one or two digits, optionally another dash or slash and one or
two more digits, and nothing else. -/
def isoLike (s : String) : Bool :=
  let cs := s.toList
  let d4 := cs.take 4
  if ¬ (d4.length = 4 && d4.all isDigitC) then false
  else
    match cs.drop 4 with
    | sep :: rest =>
        if ¬ (sep = '-' || sep = '/') then false
        else
          let r1 := rest.takeWhile isDigitC
          let rest2 := rest.drop r1.length
          if rest2 = [] then 1 ≤ r1.length && r1.length ≤ 2
          else
            match rest2 with
            | sep2 :: rest3 =>
                (sep2 = '-' || sep2 = '/') && (1 ≤ r1.length && r1.length ≤ 2) &&
                rest3 ≠ [] && rest3.all isDigitC && rest3.length ≤ 2
            | [] => false
    | [] => false

/-- `_temporal_score` (nlp_extraction.py lines 81–131). The `datetime`
and `to_pydatetime` branches are unreachable for JSON-derived values.
The loop state is (total, parsed, numeric_years, iso_like) over the
first 200 values. -/
def _temporal_score (dateutilParses : String → Bool) (name : String) (values : List Py) : ℚ :=
  let lowered := pyLower name
  let temporal_keywords := ["date", "time", "year", "month", "day", "week", "quarter", "timestamp"]
  let score0 : ℚ := if temporal_keywords.any (fun k => strContains lowered k) then mkRat 4 10 else qnat 0
  let st := (values.take 200).foldl
    (fun (st : Nat × Nat × Nat × Nat) value =>
      if isNullish value then st
      else
        let total := st.1 + 1
        let text := pyStrip (pyStr value)
        if text = "" then (total, st.2.1, st.2.2.1, st.2.2.2)
        else if dateutilParses text then (total, st.2.1 + 1, st.2.2.1, st.2.2.2)
        else
          let numeric_years := st.2.2.1 +
            (match _safe_float (Py.str text) with
             | some q => if qle (qint 1800) q && qle q (qint 2200) && q.den = 1 then 1 else 0
             | Option.none => 0)
          let iso_like := st.2.2.2 + (if isoLike text then 1 else 0)
          (total, st.2.1, numeric_years, iso_like))
    (0, 0, 0, 0)
  let total := st.1
  let score :=
    if total > 0 then
      qadd (qadd (qadd score0 (qmul (mkRat 6 10) (qdiv (qnat st.2.1) (qnat total))))
        (qmul (mkRat 25 100) (qdiv (qnat st.2.2.1) (qnat total))))
        (qmul (mkRat 15 100) (qdiv (qnat st.2.2.2) (qnat total)))
    else score0
  qmin score (qnat 1)

/-- `_numeric_ratio` (nlp_extraction.py lines 142–151). -/
def _numeric_ratio (values : List Py) : ℚ :=
  let st := (values.take 200).foldl
    (fun (st : Nat × Nat) v =>
      if isNullish v then st
      else (st.1 + 1, st.2 + (if (_safe_float v).isSome then 1 else 0)))
    (0, 0)
  if st.1 = 0 then qnat 0 else qdiv (qnat st.2) (qnat st.1)

/-- `analyse_columns` (nlp_extraction.py lines 162–208): columns in
first-seen key order; per column the temporal score, numeric ratio,
inferred type (temporal first, then numeric, else categorical) and the
non-null / distinct-string counts. -/
def analyse_columns (dateutilParses : String → Bool) (dataset : List Record) : List Column :=
  if dataset = [] then []
  else
    let ordered_names := dataset.foldl
      (fun acc row => row.foldl
        (fun acc kv => if acc.contains kv.1 then acc else acc ++ [kv.1]) acc)
      []
    ordered_names.map (fun name =>
      let values := dataset.map (fun row => rowGetNone row name)
      let temporal_conf := _temporal_score dateutilParses name values
      let numeric_conf := _numeric_ratio values
      let non_null_values := values.filter (fun v => ¬ isNullish v)
      let inferred_type :=
        if qle (mkRat 6 10) temporal_conf then "temporal"
        else if qle (mkRat 6 10) numeric_conf then "numeric"
        else "categorical"
      { name := name, type := inferred_type, values := values,
        nonNullCount := non_null_values.length,
        uniqueCount := some ((non_null_values.map pyStr).eraseDups.length),
        numericRatio := numeric_conf, temporalScore := temporal_conf })

/-- The full deterministic pipeline, composed as the claims list it:
normalise the payload, analyse columns, interpret the query, build the
chart response. -/
def run_pipeline (jsonLoads : String → Option Py) (dateutilParses : String → Bool)
    (payload : Py) (query : String) :
    Interpretation × Except PyErr (Option ChartPayload × String × List Record) :=
  let dataset := extract_dataset jsonLoads payload
  let columns := analyse_columns dateutilParses dataset
  let interpretation := interpret_nl_query query columns
  (interpretation, build_chart_response dataset interpretation)

/-! ## Claim theorems -/

/-- Success-payload projection of a builder result. -/
def exceptPayload (r : Except PyErr (Option ChartPayload × String)) : Option ChartPayload :=
  match r with
  | .ok (p, _) => p
  | .error _ => Option.none

/-! ### C1 — the time branches raise

A dataset with an ordinary date column, sent down the Line-with-time
branch: `_aggregate_time_series` unpacks the string returned by
`_format_time_bucket` as a `(label, sort_key)` pair, which raises
`ValueError` for any label that is not exactly two characters (here
`"2023-01-05"`). The theorem drives the full pipeline. -/

def c1_dataset : Py :=
  Py.list
    [Py.dict [("Date", Py.str "2023-01-05")],
     Py.dict [("Date", Py.str "2023-02-01")]]

def c1_query : String := "show trend over time"

/-- The only strings this pipeline run passes to `dateutil.parser.parse`
are the two column values, and the real parser accepts both; the stub
agrees with it on every string the computation can reach. -/
def c1_dateutil_stub : String → Bool :=
  fun s => s = "2023-01-05" || s = "2023-02-01"

set_option maxRecDepth 8000 in
/-- C1: the claim says chart building never raises — every path yields
a chart spec or a typed error. It is false: on this dataset and query
the pipeline resolves a Line chart over the temporal `Date` column, and
`_aggregate_time_series` raises `ValueError` on the first row while
unpacking the string returned by `_format_time_bucket` (the label
`"2023-01-05"` is not a two-element sequence). -/
theorem c1_time_branch_raises :
    (run_pipeline (fun _ => Option.none) c1_dateutil_stub c1_dataset c1_query).2 =
      .error .valueError := by
  rfl

/-! ### C4 — explicit "pie" keyword versus the cardinality rule -/

def c4_query : String := "break down revenue by region as a pie"

def c4_columns (n : Nat) : List Column :=
  [{ name := "Revenue", type := "numeric", uniqueCount := some 50, numericRatio := qnat 1 },
   { name := "Region", type := "categorical", uniqueCount := some n }]

/-- C4 counterexample: with 15 unique Region values the claim demands
`Bar`, but the bare keyword `pie` in the query is an explicit chart
type and `interpret_nl_query` lets explicit types always win, so the
chart type is `Pie`. -/
theorem c4_counterexample :
    (interpret_nl_query c4_query (c4_columns 15)).chart_type = "Pie" ∧
    ("Pie" : String) ≠ "Bar" := by
  constructor
  · rfl
  · decide

/-- C4 amended: for this query the explicit keyword forces `Pie` at
both cardinalities; the `≤ 8` cardinality rule only applies to queries
without an explicit chart-type keyword. -/
theorem c4_amended :
    (interpret_nl_query c4_query (c4_columns 5)).chart_type = "Pie" ∧
    (interpret_nl_query c4_query (c4_columns 15)).chart_type = "Pie" := by
  constructor <;> rfl

/-! ### C5 — granularity inference picks the finest populated level -/

/-- The claim's selection rule, written from its words: tally the
levels, then take the level with the highest count, ties breaking
toward the coarser bucket (year coarsest). `None` when nothing
classifies. -/
def claimGranularity (values : List Py) : Option String :=
  let tally := [("year", countClass values "year"), ("quarter", countClass values "quarter"),
    ("month", countClass values "month"), ("date", countClass values "date")]
  if tally.all (fun p => p.2 = 0) then Option.none
  else some (tally.foldl
    (fun (best : String × Nat) p => if p.2 > best.2 then (p.1, p.2) else best)
    ("date", 0)).1

def c5_values : List Py := [Py.str "2023", Py.str "2023", Py.str "2023-01-05"]

/-- C5 counterexample: two values classify `quarter` and one `date`;
the claim's higher-count rule picks `quarter`, but the code returns
the finest populated level, `date`. -/
theorem c5_counterexample :
    _infer_temporal_granularity c5_values = some "date" ∧
    claimGranularity c5_values = some "quarter" ∧
    (some "date" : Option String) ≠ some "quarter" := by
  refine ⟨rfl, rfl, by decide⟩

/-- Every classification the code produces is one of the four levels. -/
theorem classify_mem_levels (v : Py) (c : String)
    (h : _classify_temporal_value v = some c) :
    c = "date" ∨ c = "month" ∨ c = "quarter" ∨ c = "year" := by
  unfold _classify_temporal_value at h
  cases hp : _parse_date_safe v with
  | none => rw [hp] at h; exact absurd h (by simp)
  | some dt =>
      rw [hp] at h
      by_cases h1 : dt.day ≠ 1 <;> by_cases h2 : dt.month ≠ 1 <;>
        by_cases h3 : dt.month = 1 || dt.month = 4 || dt.month = 7 || dt.month = 10 <;>
        simp [h1, h2, h3] at h <;> simp [← h]

/-- C5 amended: `_infer_temporal_granularity` returns `None` exactly
when no value classifies, and otherwise the *finest populated* level in
the order date, month, quarter, year — regardless of the counts. -/
theorem c5_amended (values : List Py) :
    (_infer_temporal_granularity values = Option.none ↔
      ∀ v ∈ values, _classify_temporal_value v = Option.none) ∧
    (countClass values "date" > 0 →
      _infer_temporal_granularity values = some "date") ∧
    (countClass values "date" = 0 → countClass values "month" > 0 →
      _infer_temporal_granularity values = some "month") ∧
    (countClass values "date" = 0 → countClass values "month" = 0 →
      countClass values "quarter" > 0 →
      _infer_temporal_granularity values = some "quarter") ∧
    (countClass values "date" = 0 → countClass values "month" = 0 →
      countClass values "quarter" = 0 → countClass values "year" > 0 →
      _infer_temporal_granularity values = some "year") := by
  have hcount : ∀ c, (countClass values c = 0 ↔
      ∀ v ∈ values, ¬ _classify_temporal_value v = some c) := by
    intro c
    unfold countClass
    rw [List.length_eq_zero, List.filter_eq_nil_iff]
    simp
  have key : _infer_temporal_granularity values = Option.none ↔
      (countClass values "year" = 0 ∧ countClass values "quarter" = 0 ∧
       countClass values "month" = 0 ∧ countClass values "date" = 0) := by
    unfold _infer_temporal_granularity
    by_cases h1 : countClass values "year" = 0 <;>
      by_cases h2 : countClass values "quarter" = 0 <;>
      by_cases h3 : countClass values "month" = 0 <;>
      by_cases h4 : countClass values "date" = 0 <;>
      simp [h1, h2, h3, h4, Nat.pos_iff_ne_zero]
  refine ⟨?_, ?_, ?_, ?_, ?_⟩
  · rw [key]
    constructor
    · rintro ⟨hy, hq, hm, hd⟩ v hv
      cases hc : _classify_temporal_value v with
      | none => rfl
      | some c =>
          rcases classify_mem_levels v c hc with h' | h' | h' | h' <;> subst h'
          · exact absurd hc ((hcount "date").mp hd v hv)
          · exact absurd hc ((hcount "month").mp hm v hv)
          · exact absurd hc ((hcount "quarter").mp hq v hv)
          · exact absurd hc ((hcount "year").mp hy v hv)
    · intro h
      refine ⟨?_, ?_, ?_, ?_⟩ <;>
        exact (hcount _).mpr (by intro v hv; simp [h v hv])
  · intro h
    have hd : ¬ countClass values "date" = 0 := by omega
    unfold _infer_temporal_granularity
    simp [hd, Nat.pos_iff_ne_zero]
  · intro hd h
    have hm : ¬ countClass values "month" = 0 := by omega
    unfold _infer_temporal_granularity
    simp [hd, hm, Nat.pos_iff_ne_zero]
  · intro hd hm h
    have hq : ¬ countClass values "quarter" = 0 := by omega
    unfold _infer_temporal_granularity
    simp [hd, hm, hq, Nat.pos_iff_ne_zero]
  · intro hd hm hq h
    have hy : ¬ countClass values "year" = 0 := by omega
    unfold _infer_temporal_granularity
    simp [hd, hm, hq, hy, Nat.pos_iff_ne_zero]

/-- C5 amended witness: on the concrete value list with a populated
`date` tally the inference returns `date`. -/
theorem c5_amended_witness :
    countClass c5_values "date" > 0 ∧
    _infer_temporal_granularity c5_values = some "date" :=
  ⟨by decide, (c5_amended c5_values).2.1 (by decide)⟩

/-! ### C6 — bare four-digit years never classify as `year` -/

/-- C6: the claim (and the spec) say a bare 4-digit year — `"2023"` or
the integer 2023 — classifies as `year`. The code returns `quarter`
for the string (a bare year parses to January 1st, and the
month-in-(1,4,7,10) test precedes the `year` fallthrough, making the
`year` branch unreachable for every input) and `None` for the integer
(`_parse_date_safe` only parses strings). -/
theorem c6_classify_bare_year :
    _classify_temporal_value (Py.str "2023") = some "quarter" ∧
    _classify_temporal_value (Py.int 2023) = Option.none ∧
    ∀ v : Py, _classify_temporal_value v ≠ some "year" := by
  refine ⟨rfl, rfl, ?_⟩
  intro v h
  unfold _classify_temporal_value at h
  cases hp : _parse_date_safe v with
  | none => rw [hp] at h; exact absurd h (by simp)
  | some dt =>
      rw [hp] at h
      by_cases h1 : dt.day ≠ 1
      · simp [h1] at h
      · by_cases h2 : dt.month ≠ 1
        · simp [h1, h2] at h
        · have h3 : dt.month = 1 := by omega
          simp [h1, h2, h3] at h

/-! ### C7 — a COUNT value directive does not keep the value slot empty -/

def c7_query : String := "Value: count; show revenue"

def c7_columns : List Column := [{ name := "Revenue", type := "numeric" }]

/-- C7 counterexample: the query carries the directive `Value: count`,
yet the returned interpretation assigns the numeric column `Revenue`
to the value field (the mention-based assignment fills it after the
directive stage declined to). -/
theorem c7_counterexample :
    getDirective (_parse_directives c7_query) "value" = some ["count"] ∧
    (interpret_nl_query c7_query c7_columns).fields.value = some "Revenue" := by
  constructor <;> rfl

/-- C7 amended: the `count`/`records`/`rows` literal only suppresses
directive-based resolution — the directive seeding stage leaves the
value field empty; later mention/fallback stages may still fill it. -/
theorem c7_amended (q : String) (cols : List Column) (hint : String) (rest : List String)
    (h : getDirective (_parse_directives q) "value" = some (hint :: rest))
    (hlit : [("count" : String), "records", "rows"].contains (pyLower (pyStrip hint)) = true) :
    directiveSeedValue (_parse_directives q) cols = Option.none := by
  unfold directiveSeedValue
  rw [h]
  simp only [hlit, if_true]

/-- C7 amended witness: at the concrete query the directive literal is
`count` and the directive seed is empty. -/
theorem c7_amended_witness :
    getDirective (_parse_directives c7_query) "value" = some ["count"] ∧
    directiveSeedValue (_parse_directives c7_query) c7_columns = Option.none :=
  ⟨rfl, c7_amended c7_query c7_columns "count" [] rfl (by decide)⟩

/-! ### C3 — determinism of the full pipeline

The embedded pipeline is a pure function of the payload, the query and
the two external library behaviours (`json.loads`,
`dateutil.parser.parse`): the Python code holds no module-level mutable
state, seeds no randomness, and reads no clock, so the shallow
embedding is a function and determinism is reflexivity. -/

/-- C3: two runs of the full pipeline (extract_dataset,
analyse_columns, interpret_nl_query, build_chart_response) on identical
inputs — and identical external-library behaviour — produce identical
outputs: the same interpretation, chart payload, explanation and
filtered dataset. -/
theorem c3_pipeline_deterministic (jsonLoads : String → Option Py)
    (dateutilParses : String → Bool) (payload : Py) (query : String) :
    run_pipeline jsonLoads dateutilParses payload query =
      run_pipeline jsonLoads dateutilParses payload query := rfl

/-! ### C8 — filter semantics -/

def c8_columns : List Column := [{ name := "Year", type := "numeric" }]

def c8_dataset : List Record :=
  (List.range 100).map (fun i =>
    [("Year", Py.int (if i < 40 then 2023 else 2024))])

/-- C8: `_apply_filters` keeps exactly the rows on which every filter
passes (logical AND); a missing field fails its row, as does a
numerically non-coercible value against a numeric target; and
`Filter: Year = 2023` over 100 rows of which 40 have `Year == 2023`
leaves exactly 40 rows as aggregation input. -/
theorem c8_filters_spec :
    (∀ (dataset : List Record) (filters : List Filter),
      _apply_filters dataset filters =
        dataset.filter (fun row => filters.all (fun flt => _passes row flt))) ∧
    (∀ (row : Record) (flt : Filter), rowGet row flt.column = Option.none →
      _passes row flt = false) ∧
    (∀ (row : Record) (flt : Filter), targetIsNumeric flt.value = true →
      _safe_float (rowGetNone row flt.column) = Option.none → _passes row flt = false) ∧
    _parse_filters ["Year = 2023"] c8_columns =
      [{ column := "Year", operator := "=", value := Py.float (qnat 2023),
         raw := "Year = 2023" }] ∧
    c8_dataset.length = 100 ∧
    (_apply_filters c8_dataset (_parse_filters ["Year = 2023"] c8_columns)).length = 40 := by
  refine ⟨?_, ?_, ?_, ?_, ?_, ?_⟩
  · intro dataset filters
    unfold _apply_filters
    by_cases h : filters = []
    · subst h; simp
    · simp [h]
  · intro row flt h
    unfold _passes
    simp [rowGetNone, h]
  · intro row flt h1 h2
    unfold _passes
    by_cases hn : (rowGetNone row flt.column == Py.none) = true
    · simp [hn]
    · simp [hn, h1, h2]
  · rfl
  · rfl
  · rfl

/-- C8 witness: a row without the filtered column fails the filter. -/
theorem c8_filters_spec_witness :
    rowGet ([("Other", Py.int 1)] : Record)
      (Filter.mk "Year" "=" (Py.float (qnat 2023)) "Year = 2023").column = Option.none ∧
    _passes [("Other", Py.int 1)]
      (Filter.mk "Year" "=" (Py.float (qnat 2023)) "Year = 2023") = false :=
  ⟨rfl, c8_filters_spec.2.1 [("Other", Py.int 1)] _ rfl⟩

/-! ### C2 — parallel labels and data -/

theorem length_histFreqs (values : List ℚ) (min_val step : ℚ) (bins : Nat) :
    (histFreqs values min_val step bins).length = bins := by
  unfold histFreqs
  suffices h : ∀ (l : List Nat), (values.foldl
      (fun freqs v =>
        freqs.set (min (qtruncNat (qdiv (qsub v min_val) step)) (bins - 1))
          (freqs.getD (min (qtruncNat (qdiv (qsub v min_val) step)) (bins - 1)) 0 + 1))
      l).length = l.length by
    rw [h]; exact List.length_replicate bins 0
  induction values with
  | nil => intro l; rfl
  | cons v vs ih =>
      intro l
      simp only [List.foldl_cons, ih, List.length_set]

def c2_dataset : List Record := [[("A", Py.int 1), ("B", Py.int 2)]]

def c2_fields : Fields := { value := some "A", secondary_value := some "B" }

/-- C2 counterexample: a successful Scatter build returns an empty
`labels` list alongside one dataset holding one point — the arrays are
not parallel, contradicting the claim for the Scatter branch. -/
theorem c2_counterexample :
    (exceptPayload (_build_chart_data "Scatter" c2_dataset c2_fields)).map
      (fun p => (p.labels.length, p.datasets.map (fun d => d.data.length))) =
      some (0, [1]) := rfl

/-- A successful Scatter-branch build has empty labels and one dataset
holding at least one point. -/
theorem buildScatter_shape (chart_type : String) (dataset : List Record)
    (fields : Fields) (p : ChartPayload) (e : String)
    (h : buildScatter chart_type dataset fields = .ok (some p, e)) :
    p.labels = [] ∧ p.datasets.length = 1 ∧ ∀ d ∈ p.datasets, 1 ≤ d.data.length := by
  delta buildScatter at h
  simp only [] at h
  split at h
  · exact absurd h (by simp)
  · rename_i hpts
    simp only [Except.ok.injEq, Prod.mk.injEq, Option.some.injEq] at h
    obtain ⟨hp, _⟩ := h
    subst hp
    refine ⟨rfl, rfl, ?_⟩
    intro d hd
    simp only [_finalize_chart, List.mem_singleton] at hd
    subst hd
    exact List.length_pos.mpr hpts

/-- Every non-Scatter branch of the builder produces parallel labels
and data; each proof case-splits the branch body and reads off that
the labels and every dataset's data are maps over one common list. -/
theorem buildLineTime_parallel (chart_type : String) (dataset : List Record)
    (fields : Fields) (p : ChartPayload) (e : String)
    (h : buildLineTime chart_type dataset fields = .ok (some p, e)) :
    ∀ d ∈ p.datasets, d.data.length = p.labels.length := by
  delta buildLineTime at h
  simp only [] at h
  repeat' split at h
  all_goals first
    | (simp only [Except.ok.injEq, Prod.mk.injEq, Option.some.injEq] at h
       obtain ⟨hp, _⟩ := h
       subst hp
       intro d hd
       simp only [_finalize_chart, List.mem_map] at hd
       obtain ⟨c, _, hc⟩ := hd
       subst hc
       simp only [_finalize_chart, List.length_map])
    | simp at h

theorem buildPieLike_parallel (chart_type : String) (dataset : List Record)
    (fields : Fields) (p : ChartPayload) (e : String)
    (h : buildPieLike chart_type dataset fields = .ok (some p, e)) :
    ∀ d ∈ p.datasets, d.data.length = p.labels.length := by
  delta buildPieLike at h
  simp only [] at h
  repeat' split at h
  all_goals first
    | (simp only [Except.ok.injEq, Prod.mk.injEq, Option.some.injEq] at h
       obtain ⟨hp, _⟩ := h
       subst hp
       intro d hd
       simp only [_finalize_chart, List.mem_singleton] at hd
       subst hd
       simp only [_finalize_chart, List.length_map])
    | simp at h

theorem buildBarCategory_parallel (chart_type : String) (dataset : List Record)
    (fields : Fields) (p : ChartPayload) (e : String)
    (h : buildBarCategory chart_type dataset fields = .ok (some p, e)) :
    ∀ d ∈ p.datasets, d.data.length = p.labels.length := by
  delta buildBarCategory at h
  simp only [] at h
  repeat' split at h
  all_goals first
    | (simp only [Except.ok.injEq, Prod.mk.injEq, Option.some.injEq] at h
       obtain ⟨hp, _⟩ := h
       subst hp
       intro d hd
       simp only [_finalize_chart, List.mem_singleton] at hd
       subst hd
       simp only [_finalize_chart, List.length_map])
    | simp at h

theorem buildBarTime_parallel (chart_type : String) (dataset : List Record)
    (fields : Fields) (p : ChartPayload) (e : String)
    (h : buildBarTime chart_type dataset fields = .ok (some p, e)) :
    ∀ d ∈ p.datasets, d.data.length = p.labels.length := by
  delta buildBarTime at h
  simp only [] at h
  repeat' split at h
  all_goals first
    | (simp only [Except.ok.injEq, Prod.mk.injEq, Option.some.injEq] at h
       obtain ⟨hp, _⟩ := h
       subst hp
       intro d hd
       simp only [_finalize_chart, List.mem_singleton] at hd
       subst hd
       simp only [_finalize_chart, List.length_map])
    | simp at h

theorem buildHistogram_parallel (chart_type : String) (dataset : List Record)
    (fields : Fields) (p : ChartPayload) (e : String)
    (h : buildHistogram chart_type dataset fields = .ok (some p, e)) :
    ∀ d ∈ p.datasets, d.data.length = p.labels.length := by
  delta buildHistogram at h
  simp only [] at h
  repeat' split at h
  all_goals first
    | (simp only [Except.ok.injEq, Prod.mk.injEq, Option.some.injEq] at h
       obtain ⟨hp, _⟩ := h
       subst hp
       intro d hd
       simp only [_finalize_chart, List.mem_singleton] at hd
       subst hd
       simp only [_finalize_chart, List.length_map, length_histFreqs,
         List.length_range, List.length_singleton, List.length_cons, List.length_nil])
    | simp at h

/-- C2 amended: every successful `_build_chart_data` result either
comes from the Scatter branch (chart type `Scatter` with both numeric
roles resolved), in which case `labels` is empty and the single
dataset holds at least one point, or has parallel arrays: every
dataset\'s `data` has exactly the length of `labels`. -/
theorem c2_parallel_amended (chart_type : String) (dataset : List Record)
    (fields : Fields) (p : ChartPayload) (e : String)
    (h : _build_chart_data chart_type dataset fields = .ok (some p, e)) :
    (chart_type = "Scatter" ∧ truthyOpt fields.value = true ∧
      truthyOpt fields.secondary_value = true ∧ p.labels = [] ∧
      p.datasets.length = 1 ∧ ∀ d ∈ p.datasets, 1 ≤ d.data.length)
    ∨ (∀ d ∈ p.datasets, d.data.length = p.labels.length) := by
  delta _build_chart_data at h
  split at h
  · simp at h
  · split at h
    · rename_i hsc
      simp only [Bool.and_eq_true, decide_eq_true_eq] at hsc
      left
      obtain ⟨hsh, hssz, hsd⟩ := buildScatter_shape chart_type dataset fields p e h
      exact ⟨hsc.1.1, hsc.1.2, hsc.2, hsh, hssz, hsd⟩
    · split at h
      · exact Or.inr (buildLineTime_parallel chart_type dataset fields p e h)
      · split at h
        · exact Or.inr (buildPieLike_parallel chart_type dataset fields p e h)
        · split at h
          · exact Or.inr (buildBarCategory_parallel chart_type dataset fields p e h)
          · split at h
            · exact Or.inr (buildBarTime_parallel chart_type dataset fields p e h)
            · split at h
              · exact Or.inr (buildHistogram_parallel chart_type dataset fields p e h)
              · simp at h

/-- The payload of a concrete successful Bar build (the fallback arm
is unreachable). -/
def c2w_payload : ChartPayload :=
  match _build_chart_data "Bar" [[("R", Py.str "a"), ("V", Py.int 3)]]
      { value := some "V", category := some "R" } with
  | .ok (some p, _) => p
  | _ => { labels := [], datasets := [],
           meta := { chartType := "", fields := {}, sortedLabels := false,
                     axisLabels := [], series := Option.none,
                     timeGranularity := Option.none, xScaleType := Option.none,
                     beginAtZero := Option.none,
                     legend := { display := false, position := Option.none } } }

/-- C2 amended witness: a Bar build over a category column has
parallel arrays. -/
theorem c2_parallel_amended_witness :
    (_build_chart_data "Bar" [[("R", Py.str "a"), ("V", Py.int 3)]]
        { value := some "V", category := some "R" } =
      .ok (some (c2w_payload), "sum of v by R")) ∧
    (∀ d ∈ c2w_payload.datasets, d.data.length = c2w_payload.labels.length) := by
  refine ⟨rfl, ?_⟩
  rcases c2_parallel_amended "Bar" [[("R", Py.str "a"), ("V", Py.int 3)]]
      { value := some "V", category := some "R" } c2w_payload "sum of v by R" rfl with hsc | hpar
  · exact absurd hsc.1 (by decide)
  · exact hpar

/-! ### C9 — histogram bin count and frequency sum -/

/-- The claim rule for the histogram bin count:
`clamp(round(sqrt N), 3, 10)`. Defined from the claim wording, to be
compared with the code. The nearest integer to `sqrt N` is computed
exactly as `(intSqrt (4 * N) + 1) / 2`: `sqrt N` is never exactly
halfway between two integers (that would need `N = k * k + k + 1 / 4`),
so the rounding direction at `.5` never arises. -/
def claimBinCount (N : Nat) : Nat :=
  min 10 (max 3 ((intSqrt (4 * N) + 1) / 2))

/-- 15 rows whose `X` values are 0..14 (so min is not max). -/
def c9_dataset : List Record :=
  (List.range 15).map (fun i => [("X", Py.int (Int.ofNat i))])

def c9_fields : Fields := { value := some "X" }

/-- Reads the frequencies back out of a chart data list and sums
them (`Py.int` entries only). -/
def pyNatSum (l : List Py) : Nat :=
  (l.filterMap (fun v => match v with
    | Py.int i => some i.toNat
    | _ => Option.none)).sum

/-- C9: the claim says the histogram bin count is
`clamp(round(sqrt N), 3, 10)`; the code computes `int(N ** 0.5)`,
which floors instead of rounding. On 15 values 0..14 the code builds
3 bins while the claim demands `round(sqrt 15) = 4`. -/
theorem c9_counterexample :
    (exceptPayload (_build_chart_data "Bar" c9_dataset c9_fields)).map
        (fun p => p.labels.length) = some 3 ∧
    claimBinCount 15 = 4 := ⟨rfl, rfl⟩

theorem sum_set_incr (l : List Nat) (i : Nat) (h : i < l.length) :
    (l.set i (l.getD i 0 + 1)).sum = l.sum + 1 := by
  induction l generalizing i with
  | nil => simp at h
  | cons x xs ih =>
      cases i with
      | zero => simp [List.sum_cons]; omega
      | succ j =>
          simp only [List.set_cons_succ, List.getD_cons_succ, List.sum_cons]
          rw [ih j (by simpa using h)]
          omega

theorem histFreqs_sum (values : List ℚ) (min_val step : ℚ) (bins : Nat)
    (hb : 0 < bins) :
    (histFreqs values min_val step bins).sum = values.length := by
  unfold histFreqs
  suffices h : ∀ l : List Nat, l.length = bins →
      (values.foldl (fun freqs v =>
        freqs.set (min (qtruncNat (qdiv (qsub v min_val) step)) (bins - 1))
          (freqs.getD (min (qtruncNat (qdiv (qsub v min_val) step)) (bins - 1)) 0 + 1))
        l).sum = l.sum + values.length by
    rw [h (List.replicate bins 0) (List.length_replicate bins 0)]
    simp
  induction values with
  | nil => intro l _; simp
  | cons v vs ih =>
      intro l hl
      simp only [List.foldl_cons, List.length_cons]
      rw [ih _ (by rw [List.length_set]; exact hl),
          sum_set_incr l _ (by
            rw [hl]
            exact Nat.lt_of_le_of_lt (Nat.min_le_right _ _) (Nat.sub_lt hb Nat.one_pos))]
      omega

theorem pyNatSum_map_int (l : List Nat) :
    pyNatSum (l.map (fun n => Py.int (Int.ofNat n))) = l.sum := by
  induction l with
  | nil => rfl
  | cons x xs ih =>
      simp only [pyNatSum, List.map_cons, List.filterMap_cons, List.sum_cons] at ih ⊢
      rw [ih]
      rfl

/-- C9 amended: a histogram build over at least one
numerically-coercible value always succeeds; the bin count is 1 when
min equals max and `clamp(floor(sqrt N), 3, 10)` otherwise (the code
floors the square root via `int(N ** 0.5)` rather than rounding it),
and every dataset\'s bin frequencies sum to N, the count of
numerically-coercible values. -/
theorem c9_amended (chart_type : String) (dataset : List Record) (fields : Fields)
    (hne : dataset.filterMap
        (fun row => _safe_float (rowGetNone row (fields.value.getD ""))) ≠ []) :
    ∃ p e, buildHistogram chart_type dataset fields = .ok (some p, e) ∧
      (let values0 := dataset.filterMap
          (fun row => _safe_float (rowGetNone row (fields.value.getD "")))
       let values := stableSortBy (fun a b => qle a b) values0
       (if values.headD (qnat 0) = values.getLastD (qnat 0) then p.labels.length = 1
        else p.labels.length = min 10 (max 3 (intSqrt values0.length))) ∧
       ∀ d ∈ p.datasets, pyNatSum d.data = values0.length) := by
  delta buildHistogram
  simp only []
  split
  · exact absurd ‹_› hne
  · split
    · refine ⟨_, _, rfl, ?_, ?_⟩
      · simp [_finalize_chart]
      · intro d hd
        simp only [_finalize_chart, List.mem_singleton] at hd
        subst hd
        simp [pyNatSum, length_stableSortBy]
    · refine ⟨_, _, rfl, ?_, ?_⟩
      · simp [_finalize_chart, length_stableSortBy]
      · intro d hd
        simp only [_finalize_chart, List.mem_singleton] at hd
        subst hd
        have hsum := histFreqs_sum
          (stableSortBy (fun a b => qle a b)
            (dataset.filterMap
              (fun row => _safe_float (rowGetNone row (fields.value.getD "")))))
          ((stableSortBy (fun a b => qle a b)
              (dataset.filterMap
                (fun row => _safe_float (rowGetNone row (fields.value.getD ""))))).headD (qnat 0))
          (qdiv (qsub
            ((stableSortBy (fun a b => qle a b)
                (dataset.filterMap
                  (fun row => _safe_float (rowGetNone row (fields.value.getD ""))))).getLastD (qnat 0))
            ((stableSortBy (fun a b => qle a b)
                (dataset.filterMap
                  (fun row => _safe_float (rowGetNone row (fields.value.getD ""))))).headD (qnat 0)))
            (qnat (min 10 (max 3 (intSqrt
              (stableSortBy (fun a b => qle a b)
                (dataset.filterMap
                  (fun row => _safe_float (rowGetNone row (fields.value.getD ""))))).length)))))
          (min 10 (max 3 (intSqrt
            (stableSortBy (fun a b => qle a b)
              (dataset.filterMap
                (fun row => _safe_float (rowGetNone row (fields.value.getD ""))))).length)))
          (by omega)
        rw [pyNatSum_map_int, hsum, length_stableSortBy]

/-- C9 amended witness: on the 15 concrete values 0..14 the build
succeeds with the stated bin count and frequency sum. -/
theorem c9_amended_witness :
    ∃ p e, buildHistogram "Bar" c9_dataset c9_fields = .ok (some p, e) ∧
      (let values0 := c9_dataset.filterMap
          (fun row => _safe_float (rowGetNone row (c9_fields.value.getD "")))
       let values := stableSortBy (fun a b => qle a b) values0
       (if values.headD (qnat 0) = values.getLastD (qnat 0) then p.labels.length = 1
        else p.labels.length = min 10 (max 3 (intSqrt values0.length))) ∧
       ∀ d ∈ p.datasets, pyNatSum d.data = values0.length) :=
  c9_amended "Bar" c9_dataset c9_fields (by decide)

/-! ### C10 — distinctness of the secondary value field -/

def c10_query : String := "revenue vs x "

/-- A column set containing two columns literally named `""` (one
temporal, one numeric). `analyse_columns` never filters empty names,
so such columns reach the interpreter. -/
def c10_columns : List Column :=
  [{ name := "revenue", type := "numeric", numericRatio := qnat 1 },
   { name := "", type := "temporal", temporalScore := qnat 1 },
   { name := "", type := "numeric", numericRatio := qnat 1 }]

/-- C10: the claim says a resolved (non-null) secondary value differs
from the time field, but on a scatter query over columns named `""`
the interpreter returns `secondary_value = some ""` and
`time = some ""`: the guard at lines 628-629 skips the time comparison
because the empty string is falsy in Python. -/
theorem c10_counterexample :
    (interpret_nl_query c10_query c10_columns).fields.secondary_value = some "" ∧
    (interpret_nl_query c10_query c10_columns).fields.time = some "" ∧
    (interpret_nl_query c10_query c10_columns).fields.secondary_value ≠ Option.none := by
  have h1 : (interpret_nl_query c10_query c10_columns).fields.secondary_value = some "" := rfl
  refine ⟨h1, rfl, ?_⟩
  intro hn
  rw [h1] at hn
  exact Option.noConfusion hn

theorem finalSecondaryGuard_ne (value time secondary : Option String) (s : String)
    (h : finalSecondaryGuard value time secondary = some s) :
    finalSecondaryGuard value time secondary ≠ value ∧
    (truthyOpt time = true →
      finalSecondaryGuard value time secondary ≠ time) := by
  unfold finalSecondaryGuard at h ⊢
  split at h
  · exact absurd h (by simp)
  · rename_i hc
    rw [if_neg hc]
    simp only [Bool.or_eq_true, Bool.and_eq_true, decide_eq_true_eq, not_or,
      not_and] at hc
    exact ⟨hc.1, fun ht heq => hc.2 ht heq⟩

/-- C10 amended: a resolved secondary value always differs from the
value field, and differs from the time field whenever the time field
is truthy (non-null and non-empty); only a time field that is the
empty string — a column literally named `""` — defeats the guard at
lines 628-629, because Python tests `time_field and ...` by
truthiness. -/
theorem c10_amended (query : String) (columns : List Column) (s : String)
    (h : (interpret_nl_query query columns).fields.secondary_value = some s) :
    (interpret_nl_query query columns).fields.secondary_value ≠
        (interpret_nl_query query columns).fields.value ∧
    (truthyOpt (interpret_nl_query query columns).fields.time = true →
      (interpret_nl_query query columns).fields.secondary_value ≠
        (interpret_nl_query query columns).fields.time) :=
  finalSecondaryGuard_ne _ _ _ s h

/-- Two distinct nonempty numeric columns for the witness. -/
def c10w_columns : List Column :=
  [{ name := "alpha", type := "numeric", numericRatio := qnat 1 },
   { name := "beta", type := "numeric", numericRatio := qnat 1 }]

set_option maxRecDepth 8000 in
/-- C10 amended witness: on a scatter query over `alpha`/`beta` the
secondary value resolves to `beta` and differs from both the value and
the time fields. -/
theorem c10_amended_witness :
    (interpret_nl_query "alpha vs bet" c10w_columns).fields.secondary_value ≠
        (interpret_nl_query "alpha vs bet" c10w_columns).fields.value ∧
    (truthyOpt (interpret_nl_query "alpha vs bet" c10w_columns).fields.time = true →
      (interpret_nl_query "alpha vs bet" c10w_columns).fields.secondary_value ≠
        (interpret_nl_query "alpha vs bet" c10w_columns).fields.time) :=
  c10_amended "alpha vs bet" c10w_columns "beta" rfl

end AITool
